import Mathlib

/-!
Verification of the OWON VDS1022 oscilloscope driver
(`src/api/python/vds1022/vds1022.py`) against its specification.

The Python code is shallowly embedded: floats are modelled as exact
rationals, Python `round` (half-to-even) as `pyround`, byte strings as
`List ℕ` of values below 256, and the in-place mutations of the device
object as explicit state passing.  Fallible calls return the final state
together with an optional error, mirroring the fact that a raised Python
exception leaves the mutations already performed in place.
-/

/-- Python `round`: round half to even (banker's rounding). -/
def pyround (q : ℚ) : ℤ :=
  if q - ⌊q⌋ = 1 / 2 then (if ⌊q⌋ % 2 = 0 then ⌊q⌋ else ⌊q⌋ + 1) else round q

/-- Python `round(x, 3)`: round to 3 decimal places, half to even. -/
def round3 (q : ℚ) : ℚ := (pyround (q * 1000) : ℚ) / 1000

/-- `_clip` from the source: clamp `x` into `[lo, hi]`. -/
def clip (x lo hi : ℚ) : ℚ := if x < lo then lo else if hi < x then hi else x

/-- `_clip` on integers (Python ints). -/
def clipZ (x lo hi : ℤ) : ℤ := if x < lo then lo else if hi < x then hi else x

/-- Little-endian byte encoding of `v` on `n` bytes (as `struct.pack` does). -/
def toLE : ℕ → ℕ → List ℕ
  | _, 0 => []
  | v, n + 1 => v % 256 :: toLE (v / 256) n

/-- Little-endian byte decoding, inverse of `toLE`. -/
def fromLE (bs : List ℕ) : ℕ := bs.foldr (fun b acc => b + 256 * acc) 0

theorem length_toLE (v n : ℕ) : (toLE v n).length = n := by
  induction n generalizing v with
  | zero => rfl
  | succ n ih => simp [toLE, ih]

theorem fromLE_toLE (v n : ℕ) (h : v < 256 ^ n) : fromLE (toLE v n) = v := by
  induction n generalizing v with
  | zero => interval_cases v; rfl
  | succ n ih =>
    have hdiv : v / 256 < 256 ^ n := by
      rw [Nat.div_lt_iff_lt_mul (by norm_num)]
      calc v < 256 ^ (n + 1) := h
        _ = 256 ^ n * 256 := by ring
    simp only [toLE, fromLE, List.foldr_cons]
    have := ih (v / 256) hdiv
    simp only [fromLE] at this
    rw [this]
    omega

/-- `CMD.Cmd`: a command descriptor.  `size` is the argument byte width,
which the source derives as `struct.size - 5` from the packing struct
(`IBB` gives 1, `IBH` gives 2, `IBI` gives 4). -/
structure Cmd where
  name : String
  address : ℕ
  size : ℕ
deriving DecidableEq

/-- `Cmd.pack`: `struct.pack(self.address, self.size, arg)` little endian.
Python `struct` raises (wrapped into a `ValueError` by the source) when the
argument does not fit the unsigned range of its field, so packing is
partial. -/
def Cmd.pack (c : Cmd) (v : ℤ) : Option (List ℕ) :=
  if 0 ≤ v ∧ v < 2 ^ (8 * c.size) then
    some (toLE c.address 4 ++ [c.size] ++ toLE v.toNat c.size)
  else none

/-- The command table `CMD` from the source (name, address, value width). -/
def CMD_TABLE : List Cmd := [
  ⟨"READ_FLASH", 0x01b0, 1⟩,
  ⟨"WRITE_FLASH", 0x01a0, 1⟩,
  ⟨"QUERY_FPGA", 0x0223, 1⟩,
  ⟨"LOAD_FPGA", 0x4000, 4⟩,
  ⟨"EMPTY", 0x010c, 1⟩,
  ⟨"GET_MACHINE", 0x4001, 1⟩,
  ⟨"GET_DATA", 0x1000, 2⟩,
  ⟨"GET_TRIGGERED", 0x01, 1⟩,
  ⟨"GET_VIDEOTRGD", 0x02, 1⟩,
  ⟨"SET_MULTI", 0x06, 2⟩,
  ⟨"SET_PEAKMODE", 0x09, 1⟩,
  ⟨"SET_ROLLMODE", 0x0a, 1⟩,
  ⟨"SET_CHL_ON", 0x0b, 1⟩,
  ⟨"SET_FORCETRG", 0x0c, 1⟩,
  ⟨"SET_PHASEFINE", 0x18, 2⟩,
  ⟨"SET_TRIGGER", 0x24, 2⟩,
  ⟨"SET_VIDEOLINE", 0x32, 2⟩,
  ⟨"SET_TIMEBASE", 0x52, 4⟩,
  ⟨"SET_SUF_TRG", 0x56, 4⟩,
  ⟨"SET_PRE_TRG", 0x5a, 2⟩,
  ⟨"SET_DEEPMEMORY", 0x5c, 2⟩,
  ⟨"SET_RUNSTOP", 0x61, 1⟩,
  ⟨"GET_DATAFINISHED", 0x7a, 1⟩,
  ⟨"GET_STOPPED", 0xb1, 1⟩,
  ⟨"SET_CHANNEL_CH1", 0x0111, 1⟩,
  ⟨"SET_CHANNEL_CH2", 0x0110, 1⟩,
  ⟨"SET_ZERO_OFF_CH1", 0x010a, 2⟩,
  ⟨"SET_ZERO_OFF_CH2", 0x0108, 2⟩,
  ⟨"SET_VOLT_GAIN_CH1", 0x0116, 2⟩,
  ⟨"SET_VOLT_GAIN_CH2", 0x0114, 2⟩,
  ⟨"SET_SLOPE_THRED_CH1", 0x10, 2⟩,
  ⟨"SET_SLOPE_THRED_CH2", 0x12, 2⟩,
  ⟨"SET_EDGE_LEVEL_CH1", 0x2e, 2⟩,
  ⟨"SET_EDGE_LEVEL_CH2", 0x30, 2⟩,
  ⟨"SET_TRG_HOLDOFF_CH1", 0x26, 2⟩,
  ⟨"SET_TRG_HOLDOFF_CH2", 0x2a, 2⟩,
  ⟨"SET_TRG_CDT_EQU_H_CH1", 0x32, 2⟩,
  ⟨"SET_TRG_CDT_EQU_H_CH2", 0x3a, 2⟩,
  ⟨"SET_TRG_CDT_EQU_L_CH1", 0x36, 2⟩,
  ⟨"SET_TRG_CDT_EQU_L_CH2", 0x3e, 2⟩,
  ⟨"SET_TRG_CDT_GL_CH1", 0x42, 2⟩,
  ⟨"SET_TRG_CDT_GL_CH2", 0x46, 2⟩,
  ⟨"SET_TRG_CDT_HL_CH1", 0x44, 2⟩,
  ⟨"SET_TRG_CDT_HL_CH2", 0x48, 2⟩,
  ⟨"SET_FREQREF_CH1", 0x4a, 1⟩,
  ⟨"SET_FREQREF_CH2", 0x4b, 1⟩ ]

theorem cmd_table_sizes : ∀ c ∈ CMD_TABLE, c.size = 1 ∨ c.size = 2 ∨ c.size = 4 := by
  decide

/-- C1: for every command of the table and every integer fitting its declared
byte width, `pack` produces the little-endian frame
`address:u32 | size:u8 | value`, and decoding the value bytes of that frame
returns the argument; an argument outside the width fails to pack. -/
theorem C1_pack_roundtrip :
    ∀ c ∈ CMD_TABLE, ∀ v : ℤ,
      ((0 ≤ v ∧ v < 2 ^ (8 * c.size)) →
        ∃ frame, Cmd.pack c v = some frame ∧
          frame = toLE c.address 4 ++ [c.size] ++ toLE v.toNat c.size ∧
          frame.take 4 = toLE c.address 4 ∧
          frame.getD 4 0 = c.size ∧
          (fromLE (frame.drop 5) : ℤ) = v) ∧
      (¬(0 ≤ v ∧ v < 2 ^ (8 * c.size)) → Cmd.pack c v = none) := by
  intro c hc v
  constructor
  · intro h
    refine ⟨toLE c.address 4 ++ [c.size] ++ toLE v.toNat c.size, ?_, rfl, ?_, ?_, ?_⟩
    · simp [Cmd.pack, h]
    · rw [List.take_append_of_le_length (by simp [length_toLE])]
      simp [length_toLE]
    · have h4 : (toLE c.address 4).length = 4 := length_toLE _ _
      rw [List.getD_append _ _ _ _ (by simp [h4])]
      rw [List.getD_append_right _ _ _ _ (by omega)]
      simp [h4]
    · have h5 : (toLE c.address 4 ++ [c.size]).length = 5 := by simp [length_toLE]
      have hdrop : (toLE c.address 4 ++ [c.size] ++ toLE v.toNat c.size).drop 5
          = toLE v.toNat c.size := by
        rw [← h5, List.drop_left]
      rw [hdrop]
      have hlt : v.toNat < 256 ^ c.size := by
        have h2 : (((256 : ℕ) ^ c.size : ℕ) : ℤ) = 2 ^ (8 * c.size) := by
          push_cast
          rw [pow_mul]
          norm_num
        have h3 : (v.toNat : ℤ) < (((256 : ℕ) ^ c.size : ℕ) : ℤ) := by
          rw [h2, Int.toNat_of_nonneg h.1]
          exact h.2
        exact_mod_cast h3
      rw [fromLE_toLE _ _ hlt]
      omega
  · intro h
    simp [Cmd.pack, h]

/-- C1 witness: the round-trip theorem applied to `SET_TRIGGER` (2-byte width)
at value 0x1234. -/
theorem C1_pack_roundtrip_witness :
    ∃ frame, Cmd.pack ⟨"SET_TRIGGER", 0x24, 2⟩ 0x1234 = some frame ∧
      frame = toLE 0x24 4 ++ [2] ++ toLE 0x1234 2 ∧
      frame.take 4 = toLE 0x24 4 ∧
      frame.getD 4 0 = 2 ∧
      (fromLE (frame.drop 5) : ℤ) = 0x1234 :=
  (C1_pack_roundtrip ⟨"SET_TRIGGER", 0x24, 2⟩ (by decide) 0x1234).1 (by decide)

/-- `VDS1022._push_sampling`, arithmetic part (source lines 1921-1922):
`prescaler = max(1, round(SAMPLING_RATES[-1] / max(3, rate)))` and the
resulting sampling rate `SAMPLING_RATES[-1] / prescaler`, with
`SAMPLING_RATES[-1] = 100e6`. -/
def push_sampling_calc (rate : ℚ) : ℤ × ℚ :=
  let prescaler := max 1 (pyround (100000000 / max 3 rate))
  (prescaler, 100000000 / (prescaler : ℚ))

/-- Modelled from the spec sentence of C2: `prescaler = max(1, round(top_rate/r))`
(no clamping of the request at 3). -/
def spec_prescaler (rate : ℚ) : ℤ := max 1 (pyround (100000000 / rate))

theorem pyround_intCast (z : ℤ) : pyround (z : ℚ) = z := by
  rw [pyround, if_neg, round_intCast]
  rw [Int.floor_intCast]
  intro h
  rw [sub_self] at h
  norm_num at h

theorem pyround_le_round (q : ℚ) : pyround q ≤ round q := by
  rw [pyround]
  split
  · next h =>
    have hq : round q = ⌊q⌋ + 1 := by
      rw [round_eq]
      have h2 : q + 1 / 2 = ((⌊q⌋ + 1 : ℤ) : ℚ) := by
        push_cast
        linarith [h]
      rw [h2, Int.floor_intCast]
    rw [hq]
    split <;> omega
  · exact le_refl _

/-- Evaluation of `pyround` when `q` lies strictly between two half-integers
around `n`. -/
theorem pyround_eq (q : ℚ) (n : ℤ) (hlo : -(1 / 2) < q - n) (hhi : q - n < 1 / 2) :
    pyround q = n := by
  rcases le_or_lt (n : ℚ) q with h | h
  · have hf : ⌊q⌋ = n := by
      rw [Int.floor_eq_iff]
      exact ⟨h, by linarith⟩
    rw [pyround, hf, if_neg (by intro hc; rw [hc] at hhi; norm_num at hhi)]
    rw [round_eq, Int.floor_eq_iff]
    constructor
    · linarith
    · linarith
  · have hf : ⌊q⌋ = n - 1 := by
      rw [Int.floor_eq_iff]
      push_cast
      constructor <;> linarith
    have hne : q - ((n : ℚ) - 1) ≠ 1 / 2 := by
      intro hc
      have : q - n = -(1 / 2) := by linarith
      rw [this] at hlo
      norm_num at hlo
    rw [pyround, hf, if_neg (by push_cast; exact hne)]
    rw [round_eq, Int.floor_eq_iff]
    constructor
    · linarith
    · linarith


/-- C2 counterexample: at the minimum accepted rate request 2.5 S/s the code
prescaler (which divides by `max(3, rate)`) differs from the spec formula
`max(1, round(top_rate/r))`. -/
theorem C2_prescaler_counterexample :
    (push_sampling_calc (5 / 2)).1 = 33333333 ∧
    spec_prescaler (5 / 2) = 40000000 ∧
    (push_sampling_calc (5 / 2)).1 ≠ spec_prescaler (5 / 2) := by
  have hmax : max (3 : ℚ) (5 / 2) = 3 := max_eq_left (by norm_num)
  have h1 : pyround ((100000000 : ℚ) / 3) = 33333333 := by
    apply pyround_eq <;> norm_num
  have h2 : pyround ((100000000 : ℚ) / (5 / 2)) = 40000000 := by
    apply pyround_eq <;> norm_num
  have e1 : (push_sampling_calc (5 / 2)).1 = 33333333 := by
    simp only [push_sampling_calc, hmax, h1]
    norm_num
  have e2 : spec_prescaler (5 / 2) = 40000000 := by
    simp only [spec_prescaler, h2]
    norm_num
  exact ⟨e1, e2, by rw [e1, e2]; norm_num⟩

theorem round_le_round (x y : ℚ) (h : x ≤ y) : round x ≤ round y := by
  rw [round_eq, round_eq]
  exact Int.floor_le_floor (by linarith)

/-- C2 (amended): `_push_sampling` computes
`prescaler = max(1, round(top_rate / max(3, r)))` (the request is clamped
below at 3 S/s) and `sampling_rate = top_rate / prescaler`; the computation
is idempotent: feeding the resulting sampling rate back in yields the same
prescaler and the same sampling rate. -/
theorem C2_sampling_idempotent (r : ℚ) (_h1 : 5 / 2 ≤ r) (_h2 : r ≤ 100000000) :
    (push_sampling_calc r).1 = max 1 (pyround (100000000 / max 3 r)) ∧
    push_sampling_calc ((push_sampling_calc r).2) = push_sampling_calc r := by
  refine ⟨rfl, ?_⟩
  have hm3 : (3 : ℚ) ≤ max 3 r := le_max_left _ _
  have hub : pyround (100000000 / max 3 r) ≤ 33333333 := by
    have hx : (100000000 : ℚ) / max 3 r ≤ 100000000 / 3 := by
      apply div_le_div_of_nonneg_left (by norm_num) (by norm_num) hm3
    calc pyround (100000000 / max 3 r) ≤ round ((100000000 : ℚ) / max 3 r) :=
          pyround_le_round _
      _ ≤ round ((100000000 : ℚ) / 3) := round_le_round _ _ hx
      _ = 33333333 := by
          rw [round_eq, Int.floor_eq_iff]
          norm_num
  set p : ℤ := max 1 (pyround (100000000 / max 3 r)) with hp
  have hp1 : 1 ≤ p := le_max_left _ _
  have hpub : p ≤ 33333333 := max_le (by norm_num) hub
  have hppos : (0 : ℚ) < (p : ℚ) := by exact_mod_cast hp1
  have hsr3 : (3 : ℚ) < 100000000 / (p : ℚ) := by
    rw [lt_div_iff₀ hppos]
    have : (p : ℚ) ≤ 33333333 := by exact_mod_cast hpub
    linarith
  have hsrmax : max (3 : ℚ) (100000000 / (p : ℚ)) = 100000000 / (p : ℚ) :=
    max_eq_right (le_of_lt hsr3)
  have hback : (100000000 : ℚ) / (100000000 / (p : ℚ)) = (p : ℚ) := by
    rw [div_div_eq_mul_div, mul_comm, mul_div_assoc, div_self (by norm_num), mul_one]
  have hcalc : push_sampling_calc ((push_sampling_calc r).2) = push_sampling_calc r := by
    show push_sampling_calc (100000000 / (p : ℚ)) = (p, 100000000 / (p : ℚ))
    unfold push_sampling_calc
    rw [hsrmax, hback, pyround_intCast]
    have : max 1 p = p := max_eq_right hp1
    rw [this]
  exact hcalc

/-- C2 witness: idempotence at the concrete request of 4 S/s. -/
theorem C2_sampling_idempotent_witness :
    push_sampling_calc ((push_sampling_calc 4).2) = push_sampling_calc 4 :=
  (C2_sampling_idempotent 4 (by norm_num) (by norm_num)).2

/-- Result of `VDS1022._send`: either a decoded response value or the
re-raised USB error, together with the backoff waits performed (in seconds),
in order. -/
inductive SendRes
  | ok (value : ℤ) (waits : List ℚ)
  | raised (waits : List ℚ)
deriving DecidableEq

/-- `VDS1022._send` / `VDS1022._on_usb_err`: repeat write+read+decode;
`outcomes i` is the result of the i-th bulk exchange (`none` = `USBError`,
`some v` = decoded value).  On an error, `_failures` is incremented; if it
exceeds 2 the error is re-raised, otherwise the loop waits
`0.01 * _failures` seconds and retries.  A successful `_bulk_read` resets
`_failures` to 0. -/
def send_loop (outcomes : ℕ → Option ℤ) (i failures : ℕ) (waits : List ℚ) : SendRes :=
  match outcomes i with
  | some v => .ok v waits.reverse
  | none =>
    if h : 2 < failures + 1 then .raised waits.reverse
    else send_loop outcomes (i + 1) (failures + 1) ((1 / 100 : ℚ) * (failures + 1) :: waits)
termination_by 3 - failures
decreasing_by omega

/-- `VDS1022._send` starting from a fresh exchange with no recorded failures. -/
def send (outcomes : ℕ → Option ℤ) : SendRes := send_loop outcomes 0 0 []

/-- C5: `_send` retries a failed bulk exchange at most twice, waiting
`10 ms * failure count` before each retry, and re-raises the transport error
once the consecutive-failure count exceeds 2. -/
theorem C5_send_retries (outcomes : ℕ → Option ℤ) (v : ℤ) :
    (outcomes 0 = some v → send outcomes = .ok v []) ∧
    (outcomes 0 = none → outcomes 1 = some v →
      send outcomes = .ok v [1 / 100]) ∧
    (outcomes 0 = none → outcomes 1 = none → outcomes 2 = some v →
      send outcomes = .ok v [1 / 100, 2 / 100]) ∧
    (outcomes 0 = none → outcomes 1 = none → outcomes 2 = none →
      send outcomes = .raised [1 / 100, 2 / 100]) := by
  refine ⟨?_, ?_, ?_, ?_⟩
  · intro h0
    rw [send, send_loop, h0]
    rfl
  · intro h0 h1
    rw [send, send_loop, h0]
    simp only [reduceDIte]
    rw [send_loop, h1]
    norm_num
  · intro h0 h1 h2
    rw [send, send_loop, h0]
    simp only [reduceDIte]
    rw [send_loop, h1]
    simp only [reduceDIte]
    rw [send_loop, h2]
    norm_num
  · intro h0 h1 h2
    rw [send, send_loop, h0]
    simp only [reduceDIte]
    rw [send_loop, h1]
    simp only [reduceDIte]
    rw [send_loop, h2]
    norm_num

/-- C5 witness: a transport that fails its first three exchanges makes
`send` re-raise after exactly two backoff waits of 10 ms and 20 ms. -/
theorem C5_send_retries_witness :
    send (fun i => if i < 3 then none else some 7) = .raised [1 / 100, 2 / 100] :=
  (C5_send_retries (fun i => if i < 3 then none else some 7) 7).2.2.2 rfl rfl rfl

/-- `read_iter` errors: `Bad cursor` (no new samples) and
`Missed some samples! Reduce the sampling rate`. -/
inductive RollErr
  | badCursor
  | missedSamples
deriving DecidableEq

/-- Time budget of one `read_iter` turn: `maxtime = ADC_SIZE / sampling_rate`
(source line 2420). -/
def read_iter_maxtime (sampling_rate : ℚ) : ℚ := 5100 / sampling_rate

/-- One `read_iter` cursor update for a channel (source lines 2453-2460):
`size = (cursor - cursors[chl] + adc_size) % adc_size` with
`adc_size = ADC_SIZE + 20 = 5120`; `size` must be positive, and the elapsed
time since the previous read must stay below `maxtime`, otherwise the
iteration raises instead of yielding. -/
def read_iter_step (prev cursor : ℤ) (elapsed maxtime : ℚ) : Except RollErr ℤ :=
  if (cursor - prev + 5120) % 5120 ≤ 0 then .error .badCursor
  else if elapsed < maxtime then .ok ((cursor - prev + 5120) % 5120)
  else .error .missedSamples

/-- C6: for wrapping cursors without data loss, the computed new-sample count
is the forward distance of the cursor modulo `5120`; and once the elapsed
time reaches `ADC_SIZE / sampling_rate`, the iteration fails with the
missed-samples error instead of yielding. -/
theorem C6_roll_cursor (prev cursor : ℤ) (h1 : 0 ≤ prev) (h2 : prev < 5120)
    (h3 : 0 ≤ cursor) (h4 : cursor < 5120) (h5 : cursor ≠ prev)
    (elapsed sr : ℚ) :
    (elapsed < read_iter_maxtime sr →
      read_iter_step prev cursor elapsed (read_iter_maxtime sr) =
        .ok ((cursor - prev + 5120) % 5120) ∧
      0 < (cursor - prev + 5120) % 5120 ∧
      (cursor - prev + 5120) % 5120 < 5120 ∧
      (prev + (cursor - prev + 5120) % 5120) % 5120 = cursor) ∧
    (read_iter_maxtime sr ≤ elapsed →
      read_iter_step prev cursor elapsed (read_iter_maxtime sr) =
        .error .missedSamples) := by
  constructor
  · intro he
    refine ⟨?_, by omega, by omega, by omega⟩
    rw [read_iter_step, if_neg (by omega), if_pos he]
  · intro he
    rw [read_iter_step, if_neg (by omega), if_neg (by linarith)]

/-- C6 witness: at 1 kS/s with the cursor wrapping from 20 back to 10 and no
time overrun, the step yields 5110 new samples; with the budget exceeded it
raises the missed-samples error. -/
theorem C6_roll_cursor_witness :
    read_iter_step 20 10 0 (read_iter_maxtime 1000) = .ok 5110 ∧
    read_iter_step 20 10 6 (read_iter_maxtime 1000) = .error .missedSamples := by
  have h := C6_roll_cursor 20 10 (by norm_num) (by norm_num) (by norm_num)
    (by norm_num) (by norm_num)
  have hmax : read_iter_maxtime 1000 = 51 / 10 := by
    rw [read_iter_maxtime]
    norm_num
  constructor
  · have h2 := (h 0 1000).1 (by rw [hmax]; norm_num)
    rw [h2.1]
    norm_num
  · exact (h 6 1000).2 (by rw [hmax]; norm_num)

/-- Identity of a pending command: the Python queue is keyed by the `Cmd`
object; the per-channel command pairs carry the channel index. -/
inductive CmdKey
  | SET_MULTI
  | SET_PRE_TRG
  | SET_SUF_TRG
  | SET_TRIGGER
  | SET_TIMEBASE
  | SET_ROLLMODE
  | SET_DEEPMEMORY
  | SET_PEAKMODE
  | SET_CHL_ON
  | SET_PHASEFINE
  | SET_ZERO_OFF (chl : ℕ)
  | SET_VOLT_GAIN (chl : ℕ)
  | SET_CHANNEL (chl : ℕ)
  | SET_EDGE_LEVEL (chl : ℕ)
  | SET_FREQREF (chl : ℕ)
  | SET_SLOPE_THRED (chl : ℕ)
  | SET_TRG_HOLDOFF (chl : ℕ)
  | SET_TRG_CDT_EQU_H (chl : ℕ)
  | SET_TRG_CDT_EQU_L (chl : ℕ)
  | SET_TRG_CDT_GL (chl : ℕ)
  | SET_TRG_CDT_HL (chl : ℕ)
deriving DecidableEq

/-- `VDS1022._push` (source lines 1580-1582): drop any pending entry for
this command, then append the new value at the end of the ordered queue. -/
def pushCmd (q : List (CmdKey × ℤ)) (c : CmdKey) (v : ℤ) : List (CmdKey × ℤ) :=
  q.filter (fun p => p.1 ≠ c) ++ [(c, v)]

/-- `VOLT_RANGES` (source lines 77-79): the fixed ladder of 10 volt ranges. -/
def VOLT_RANGES : List ℚ := [1/20, 1/10, 1/5, 1/2, 1, 2, 5, 10, 20, 50]

/-- `_find_ge` (source line 312): `bisect.bisect_left`, which on a sorted
list is the number of leading elements below `x`. -/
def find_ge (arr : List ℚ) (x : ℚ) : ℕ := (arr.takeWhile (fun a => a < x)).length

/-- Python `list.index`: position of the first occurrence. -/
def listIndex (arr : List ℚ) (x : ℚ) : ℕ := (arr.takeWhile (fun a => a ≠ x)).length

/-- Read one entry of the calibration table `calibration[ical][chl][vb]`. -/
def calGet (cal : List (List (List ℤ))) (ical chl vb : ℕ) : ℤ :=
  ((cal.getD ical []).getD chl []).getD vb 0

/-- In-memory mirror of the device settings held by the `VDS1022` object,
restricted to the fields the configuration methods touch.  Python `None`
is modelled by `Option` for `rollmode` and by 0 for the initial
`sampling_rate` (never a reachable rate).  The pending command queue is the
ordered association list `queue`. -/
structure DevState where
  chl_on : List Bool
  coupling : List ℕ
  voltrange : List ℚ
  voltoffset : List ℚ
  probe : List ℚ
  sampling_rate : ℚ
  rollmode : Option Bool
  peakmode : Bool
  sweepmode : ℕ
  trigger_position : ℚ
  calibration : List (List (List ℤ))
  vfpga : ℕ
  queue : List (CmdKey × ℤ)
deriving DecidableEq

/-- Python exceptions raised by the configuration methods. -/
inductive PyErr
  | assertionError
  | indexError
  | notImplementedError
deriving DecidableEq

/-- `VDS1022._push_channel` (source lines 1853-1876): queue the zero-offset,
gain and channel-control register writes for channel `chl`. -/
def push_channel (st : DevState) (chl : ℕ) : DevState :=
  let vb := listIndex VOLT_RANGES (st.voltrange.getD chl 0)
  let pos0 := 250 * st.voltoffset.getD chl 0
  let attenuate := 6 ≤ vb
  let cal_comp := calGet st.calibration 2 chl vb
  let cal_ampl := calGet st.calibration 1 chl vb
  let cal_gain := calGet st.calibration 0 chl vb
  let zero_arg := clipZ (pyround ((cal_comp : ℚ) - pos0 * (cal_ampl : ℚ) / 100)) 0 4095
  let gain_arg := clipZ cal_gain 0 4095
  let chl_arg : ℕ :=
    (if attenuate then 1 else 0) <<< 1 |||
    st.coupling.getD chl 0 <<< 5 |||
    (if st.chl_on.getD chl false then 1 else 0) <<< 7
  { st with queue :=
      pushCmd (pushCmd (pushCmd st.queue (.SET_ZERO_OFF chl) zero_arg)
        (.SET_VOLT_GAIN chl) gain_arg) (.SET_CHANNEL chl) (chl_arg : ℤ) }

/-- `VDS1022.set_channel` (source lines 1809-1842): validate the arguments,
snap `round(range/probe, 3)` up to the volt-range ladder (an out-of-ladder
request indexes past the tuple and raises `IndexError`), store the channel
settings, then queue the register writes. -/
def set_channel (st : DevState) (channel : ℕ) (range offset probe : ℚ)
    (coupling : ℕ) : DevState × Option PyErr :=
  if ¬(channel = 0 ∨ channel = 1) then (st, some .assertionError)
  else if ¬(0 ≤ offset ∧ offset ≤ 1) then (st, some .assertionError)
  else if ¬(1 ≤ probe) then (st, some .assertionError)
  else
    match VOLT_RANGES[find_ge VOLT_RANGES (round3 (range / probe))]? with
    | none => (st, some .indexError)
    | some vr_new =>
      let st1 := { st with
        chl_on := st.chl_on.set channel true
        coupling := st.coupling.set channel coupling
        voltrange := st.voltrange.set channel vr_new
        voltoffset := st.voltoffset.set channel (offset - 1 / 2)
        probe := st.probe.set channel probe }
      (push_channel st1 channel, none)

/-- Defaults installed by `VDS1022._initialize` (source lines 1449-1458),
with an empty pending queue and an all-zero calibration table, used as a
concrete test fixture. -/
def initState : DevState :=
  { chl_on := [false, false]
    coupling := [1, 1]
    voltrange := [2, 2]
    voltoffset := [0, 0]
    probe := [10, 10]
    sampling_rate := 0
    rollmode := none
    peakmode := false
    sweepmode := 0
    trigger_position := 0
    calibration := List.replicate 3 (List.replicate 2 (List.replicate 10 0))
    vfpga := 1
    queue := [] }

theorem find_ge_le_nine (x : ℚ) (hx : x ≤ 50) : find_ge VOLT_RANGES x ≤ 9 := by
  by_contra hcon
  push_neg at hcon
  have hpre := List.takeWhile_prefix (l := VOLT_RANGES) (fun a => a < x)
  have hle : (VOLT_RANGES.takeWhile (fun a => a < x)).length ≤ VOLT_RANGES.length :=
    hpre.length_le
  have hlen10 : VOLT_RANGES.length = 10 := by rw [VOLT_RANGES]; rfl
  have hlen : (VOLT_RANGES.takeWhile (fun a => a < x)).length = VOLT_RANGES.length := by
    rw [hlen10]
    rw [find_ge] at hcon
    omega
  have heq : VOLT_RANGES.takeWhile (fun a => a < x) = VOLT_RANGES :=
    hpre.eq_of_length hlen
  have h50 : (50 : ℚ) ∈ VOLT_RANGES.takeWhile (fun a => a < x) := by
    rw [heq, VOLT_RANGES]
    norm_num
  have h50x := List.mem_takeWhile_imp h50
  simp only [decide_eq_true_eq] at h50x
  linarith

theorem find_ge_all (x : ℚ) (hx : 50 < x) : find_ge VOLT_RANGES x = 10 := by
  have heq : VOLT_RANGES.takeWhile (fun a => a < x) = VOLT_RANGES := by
    rw [List.takeWhile_eq_self_iff]
    intro a ha
    simp only [decide_eq_true_eq]
    fin_cases ha <;> linarith
  rw [find_ge, heq, VOLT_RANGES]
  rfl

/-- Evaluation of `round3` between two half-thousandths. -/
theorem round3_eq (q : ℚ) (n : ℤ) (hlo : -(1 / 2) < q * 1000 - n)
    (hhi : q * 1000 - n < 1 / 2) : round3 q = (n : ℚ) / 1000 := by
  rw [round3, pyround_eq _ n hlo hhi]

/-- Modelled from the spec sentence of C3: the smallest ladder entry that is
greater than or equal to `x`. -/
def spec_smallest_ge (x : ℚ) : Option ℚ := (VOLT_RANGES.filter (fun a => x ≤ a)).head?

set_option maxHeartbeats 1600000 in
/-- On the sorted volt-range ladder the `bisect_left` lookup of `find_ge`
computes exactly the spec-side smallest entry at or above `x`: the entry
found is at least `x`, is at most every ladder entry at or above `x`, and
agrees with `spec_smallest_ge`.  Proved by locating `x` in one of the ten
ladder intervals. -/
theorem ladder_snap (x : ℚ) (hx : x ≤ 50) :
    spec_smallest_ge x = some (VOLT_RANGES.getD (find_ge VOLT_RANGES x) 0) ∧
    x ≤ VOLT_RANGES.getD (find_ge VOLT_RANGES x) 0 ∧
    ∀ a ∈ VOLT_RANGES, x ≤ a → VOLT_RANGES.getD (find_ge VOLT_RANGES x) 0 ≤ a := by
  rcases le_or_lt x (1 / 20) with h0 | h0
  · have hfg : find_ge VOLT_RANGES x = 0 := by
      rw [find_ge, VOLT_RANGES,
        List.takeWhile_cons_of_neg (by simp only [decide_eq_true_eq, not_lt]; linarith)]
      rfl
    have hgd : VOLT_RANGES.getD (find_ge VOLT_RANGES x) 0 = 1 / 20 := by
      rw [hfg, VOLT_RANGES]
      rfl
    have hsp : spec_smallest_ge x = some (1 / 20) := by
      rw [spec_smallest_ge, VOLT_RANGES,
        List.filter_cons_of_pos (by simp only [decide_eq_true_eq]; linarith)]
      rfl
    refine ⟨by rw [hsp, hgd], by rw [hgd]; linarith, ?_⟩
    intro a ha
    rw [hgd]
    fin_cases ha <;> intro hxa <;> linarith
  rcases le_or_lt x (1 / 10) with h1 | h1
  · have hfg : find_ge VOLT_RANGES x = 1 := by
      rw [find_ge, VOLT_RANGES,
        List.takeWhile_cons_of_pos (by simp only [decide_eq_true_eq]; linarith),
        List.takeWhile_cons_of_neg (by simp only [decide_eq_true_eq, not_lt]; linarith)]
      rfl
    have hgd : VOLT_RANGES.getD (find_ge VOLT_RANGES x) 0 = 1 / 10 := by
      rw [hfg, VOLT_RANGES]
      rfl
    have hsp : spec_smallest_ge x = some (1 / 10) := by
      rw [spec_smallest_ge, VOLT_RANGES,
        List.filter_cons_of_neg (by simp only [decide_eq_true_eq, not_le]; linarith),
        List.filter_cons_of_pos (by simp only [decide_eq_true_eq]; linarith)]
      rfl
    refine ⟨by rw [hsp, hgd], by rw [hgd]; linarith, ?_⟩
    intro a ha
    rw [hgd]
    fin_cases ha <;> intro hxa <;> linarith
  rcases le_or_lt x (1 / 5) with h2 | h2
  · have hfg : find_ge VOLT_RANGES x = 2 := by
      rw [find_ge, VOLT_RANGES,
        List.takeWhile_cons_of_pos (by simp only [decide_eq_true_eq]; linarith),
        List.takeWhile_cons_of_pos (by simp only [decide_eq_true_eq]; linarith),
        List.takeWhile_cons_of_neg (by simp only [decide_eq_true_eq, not_lt]; linarith)]
      rfl
    have hgd : VOLT_RANGES.getD (find_ge VOLT_RANGES x) 0 = 1 / 5 := by
      rw [hfg, VOLT_RANGES]
      rfl
    have hsp : spec_smallest_ge x = some (1 / 5) := by
      rw [spec_smallest_ge, VOLT_RANGES,
        List.filter_cons_of_neg (by simp only [decide_eq_true_eq, not_le]; linarith),
        List.filter_cons_of_neg (by simp only [decide_eq_true_eq, not_le]; linarith),
        List.filter_cons_of_pos (by simp only [decide_eq_true_eq]; linarith)]
      rfl
    refine ⟨by rw [hsp, hgd], by rw [hgd]; linarith, ?_⟩
    intro a ha
    rw [hgd]
    fin_cases ha <;> intro hxa <;> linarith
  rcases le_or_lt x (1 / 2) with h3 | h3
  · have hfg : find_ge VOLT_RANGES x = 3 := by
      rw [find_ge, VOLT_RANGES,
        List.takeWhile_cons_of_pos (by simp only [decide_eq_true_eq]; linarith),
        List.takeWhile_cons_of_pos (by simp only [decide_eq_true_eq]; linarith),
        List.takeWhile_cons_of_pos (by simp only [decide_eq_true_eq]; linarith),
        List.takeWhile_cons_of_neg (by simp only [decide_eq_true_eq, not_lt]; linarith)]
      rfl
    have hgd : VOLT_RANGES.getD (find_ge VOLT_RANGES x) 0 = 1 / 2 := by
      rw [hfg, VOLT_RANGES]
      rfl
    have hsp : spec_smallest_ge x = some (1 / 2) := by
      rw [spec_smallest_ge, VOLT_RANGES,
        List.filter_cons_of_neg (by simp only [decide_eq_true_eq, not_le]; linarith),
        List.filter_cons_of_neg (by simp only [decide_eq_true_eq, not_le]; linarith),
        List.filter_cons_of_neg (by simp only [decide_eq_true_eq, not_le]; linarith),
        List.filter_cons_of_pos (by simp only [decide_eq_true_eq]; linarith)]
      rfl
    refine ⟨by rw [hsp, hgd], by rw [hgd]; linarith, ?_⟩
    intro a ha
    rw [hgd]
    fin_cases ha <;> intro hxa <;> linarith
  rcases le_or_lt x 1 with h4 | h4
  · have hfg : find_ge VOLT_RANGES x = 4 := by
      rw [find_ge, VOLT_RANGES,
        List.takeWhile_cons_of_pos (by simp only [decide_eq_true_eq]; linarith),
        List.takeWhile_cons_of_pos (by simp only [decide_eq_true_eq]; linarith),
        List.takeWhile_cons_of_pos (by simp only [decide_eq_true_eq]; linarith),
        List.takeWhile_cons_of_pos (by simp only [decide_eq_true_eq]; linarith),
        List.takeWhile_cons_of_neg (by simp only [decide_eq_true_eq, not_lt]; linarith)]
      rfl
    have hgd : VOLT_RANGES.getD (find_ge VOLT_RANGES x) 0 = 1 := by
      rw [hfg, VOLT_RANGES]
      rfl
    have hsp : spec_smallest_ge x = some 1 := by
      rw [spec_smallest_ge, VOLT_RANGES,
        List.filter_cons_of_neg (by simp only [decide_eq_true_eq, not_le]; linarith),
        List.filter_cons_of_neg (by simp only [decide_eq_true_eq, not_le]; linarith),
        List.filter_cons_of_neg (by simp only [decide_eq_true_eq, not_le]; linarith),
        List.filter_cons_of_neg (by simp only [decide_eq_true_eq, not_le]; linarith),
        List.filter_cons_of_pos (by simp only [decide_eq_true_eq]; linarith)]
      rfl
    refine ⟨by rw [hsp, hgd], by rw [hgd]; linarith, ?_⟩
    intro a ha
    rw [hgd]
    fin_cases ha <;> intro hxa <;> linarith
  rcases le_or_lt x 2 with h5 | h5
  · have hfg : find_ge VOLT_RANGES x = 5 := by
      rw [find_ge, VOLT_RANGES,
        List.takeWhile_cons_of_pos (by simp only [decide_eq_true_eq]; linarith),
        List.takeWhile_cons_of_pos (by simp only [decide_eq_true_eq]; linarith),
        List.takeWhile_cons_of_pos (by simp only [decide_eq_true_eq]; linarith),
        List.takeWhile_cons_of_pos (by simp only [decide_eq_true_eq]; linarith),
        List.takeWhile_cons_of_pos (by simp only [decide_eq_true_eq]; linarith),
        List.takeWhile_cons_of_neg (by simp only [decide_eq_true_eq, not_lt]; linarith)]
      rfl
    have hgd : VOLT_RANGES.getD (find_ge VOLT_RANGES x) 0 = 2 := by
      rw [hfg, VOLT_RANGES]
      rfl
    have hsp : spec_smallest_ge x = some 2 := by
      rw [spec_smallest_ge, VOLT_RANGES,
        List.filter_cons_of_neg (by simp only [decide_eq_true_eq, not_le]; linarith),
        List.filter_cons_of_neg (by simp only [decide_eq_true_eq, not_le]; linarith),
        List.filter_cons_of_neg (by simp only [decide_eq_true_eq, not_le]; linarith),
        List.filter_cons_of_neg (by simp only [decide_eq_true_eq, not_le]; linarith),
        List.filter_cons_of_neg (by simp only [decide_eq_true_eq, not_le]; linarith),
        List.filter_cons_of_pos (by simp only [decide_eq_true_eq]; linarith)]
      rfl
    refine ⟨by rw [hsp, hgd], by rw [hgd]; linarith, ?_⟩
    intro a ha
    rw [hgd]
    fin_cases ha <;> intro hxa <;> linarith
  rcases le_or_lt x 5 with h6 | h6
  · have hfg : find_ge VOLT_RANGES x = 6 := by
      rw [find_ge, VOLT_RANGES,
        List.takeWhile_cons_of_pos (by simp only [decide_eq_true_eq]; linarith),
        List.takeWhile_cons_of_pos (by simp only [decide_eq_true_eq]; linarith),
        List.takeWhile_cons_of_pos (by simp only [decide_eq_true_eq]; linarith),
        List.takeWhile_cons_of_pos (by simp only [decide_eq_true_eq]; linarith),
        List.takeWhile_cons_of_pos (by simp only [decide_eq_true_eq]; linarith),
        List.takeWhile_cons_of_pos (by simp only [decide_eq_true_eq]; linarith),
        List.takeWhile_cons_of_neg (by simp only [decide_eq_true_eq, not_lt]; linarith)]
      rfl
    have hgd : VOLT_RANGES.getD (find_ge VOLT_RANGES x) 0 = 5 := by
      rw [hfg, VOLT_RANGES]
      rfl
    have hsp : spec_smallest_ge x = some 5 := by
      rw [spec_smallest_ge, VOLT_RANGES,
        List.filter_cons_of_neg (by simp only [decide_eq_true_eq, not_le]; linarith),
        List.filter_cons_of_neg (by simp only [decide_eq_true_eq, not_le]; linarith),
        List.filter_cons_of_neg (by simp only [decide_eq_true_eq, not_le]; linarith),
        List.filter_cons_of_neg (by simp only [decide_eq_true_eq, not_le]; linarith),
        List.filter_cons_of_neg (by simp only [decide_eq_true_eq, not_le]; linarith),
        List.filter_cons_of_neg (by simp only [decide_eq_true_eq, not_le]; linarith),
        List.filter_cons_of_pos (by simp only [decide_eq_true_eq]; linarith)]
      rfl
    refine ⟨by rw [hsp, hgd], by rw [hgd]; linarith, ?_⟩
    intro a ha
    rw [hgd]
    fin_cases ha <;> intro hxa <;> linarith
  rcases le_or_lt x 10 with h7 | h7
  · have hfg : find_ge VOLT_RANGES x = 7 := by
      rw [find_ge, VOLT_RANGES,
        List.takeWhile_cons_of_pos (by simp only [decide_eq_true_eq]; linarith),
        List.takeWhile_cons_of_pos (by simp only [decide_eq_true_eq]; linarith),
        List.takeWhile_cons_of_pos (by simp only [decide_eq_true_eq]; linarith),
        List.takeWhile_cons_of_pos (by simp only [decide_eq_true_eq]; linarith),
        List.takeWhile_cons_of_pos (by simp only [decide_eq_true_eq]; linarith),
        List.takeWhile_cons_of_pos (by simp only [decide_eq_true_eq]; linarith),
        List.takeWhile_cons_of_pos (by simp only [decide_eq_true_eq]; linarith),
        List.takeWhile_cons_of_neg (by simp only [decide_eq_true_eq, not_lt]; linarith)]
      rfl
    have hgd : VOLT_RANGES.getD (find_ge VOLT_RANGES x) 0 = 10 := by
      rw [hfg, VOLT_RANGES]
      rfl
    have hsp : spec_smallest_ge x = some 10 := by
      rw [spec_smallest_ge, VOLT_RANGES,
        List.filter_cons_of_neg (by simp only [decide_eq_true_eq, not_le]; linarith),
        List.filter_cons_of_neg (by simp only [decide_eq_true_eq, not_le]; linarith),
        List.filter_cons_of_neg (by simp only [decide_eq_true_eq, not_le]; linarith),
        List.filter_cons_of_neg (by simp only [decide_eq_true_eq, not_le]; linarith),
        List.filter_cons_of_neg (by simp only [decide_eq_true_eq, not_le]; linarith),
        List.filter_cons_of_neg (by simp only [decide_eq_true_eq, not_le]; linarith),
        List.filter_cons_of_neg (by simp only [decide_eq_true_eq, not_le]; linarith),
        List.filter_cons_of_pos (by simp only [decide_eq_true_eq]; linarith)]
      rfl
    refine ⟨by rw [hsp, hgd], by rw [hgd]; linarith, ?_⟩
    intro a ha
    rw [hgd]
    fin_cases ha <;> intro hxa <;> linarith
  rcases le_or_lt x 20 with h8 | h8
  · have hfg : find_ge VOLT_RANGES x = 8 := by
      rw [find_ge, VOLT_RANGES,
        List.takeWhile_cons_of_pos (by simp only [decide_eq_true_eq]; linarith),
        List.takeWhile_cons_of_pos (by simp only [decide_eq_true_eq]; linarith),
        List.takeWhile_cons_of_pos (by simp only [decide_eq_true_eq]; linarith),
        List.takeWhile_cons_of_pos (by simp only [decide_eq_true_eq]; linarith),
        List.takeWhile_cons_of_pos (by simp only [decide_eq_true_eq]; linarith),
        List.takeWhile_cons_of_pos (by simp only [decide_eq_true_eq]; linarith),
        List.takeWhile_cons_of_pos (by simp only [decide_eq_true_eq]; linarith),
        List.takeWhile_cons_of_pos (by simp only [decide_eq_true_eq]; linarith),
        List.takeWhile_cons_of_neg (by simp only [decide_eq_true_eq, not_lt]; linarith)]
      rfl
    have hgd : VOLT_RANGES.getD (find_ge VOLT_RANGES x) 0 = 20 := by
      rw [hfg, VOLT_RANGES]
      rfl
    have hsp : spec_smallest_ge x = some 20 := by
      rw [spec_smallest_ge, VOLT_RANGES,
        List.filter_cons_of_neg (by simp only [decide_eq_true_eq, not_le]; linarith),
        List.filter_cons_of_neg (by simp only [decide_eq_true_eq, not_le]; linarith),
        List.filter_cons_of_neg (by simp only [decide_eq_true_eq, not_le]; linarith),
        List.filter_cons_of_neg (by simp only [decide_eq_true_eq, not_le]; linarith),
        List.filter_cons_of_neg (by simp only [decide_eq_true_eq, not_le]; linarith),
        List.filter_cons_of_neg (by simp only [decide_eq_true_eq, not_le]; linarith),
        List.filter_cons_of_neg (by simp only [decide_eq_true_eq, not_le]; linarith),
        List.filter_cons_of_neg (by simp only [decide_eq_true_eq, not_le]; linarith),
        List.filter_cons_of_pos (by simp only [decide_eq_true_eq]; linarith)]
      rfl
    refine ⟨by rw [hsp, hgd], by rw [hgd]; linarith, ?_⟩
    intro a ha
    rw [hgd]
    fin_cases ha <;> intro hxa <;> linarith
  have hfg : find_ge VOLT_RANGES x = 9 := by
    rw [find_ge, VOLT_RANGES,
      List.takeWhile_cons_of_pos (by simp only [decide_eq_true_eq]; linarith),
      List.takeWhile_cons_of_pos (by simp only [decide_eq_true_eq]; linarith),
      List.takeWhile_cons_of_pos (by simp only [decide_eq_true_eq]; linarith),
      List.takeWhile_cons_of_pos (by simp only [decide_eq_true_eq]; linarith),
      List.takeWhile_cons_of_pos (by simp only [decide_eq_true_eq]; linarith),
      List.takeWhile_cons_of_pos (by simp only [decide_eq_true_eq]; linarith),
      List.takeWhile_cons_of_pos (by simp only [decide_eq_true_eq]; linarith),
      List.takeWhile_cons_of_pos (by simp only [decide_eq_true_eq]; linarith),
      List.takeWhile_cons_of_pos (by simp only [decide_eq_true_eq]; linarith),
      List.takeWhile_cons_of_neg (by simp only [decide_eq_true_eq, not_lt]; linarith)]
    rfl
  have hgd : VOLT_RANGES.getD (find_ge VOLT_RANGES x) 0 = 50 := by
    rw [hfg, VOLT_RANGES]
    rfl
  have hsp : spec_smallest_ge x = some 50 := by
    rw [spec_smallest_ge, VOLT_RANGES,
      List.filter_cons_of_neg (by simp only [decide_eq_true_eq, not_le]; linarith),
      List.filter_cons_of_neg (by simp only [decide_eq_true_eq, not_le]; linarith),
      List.filter_cons_of_neg (by simp only [decide_eq_true_eq, not_le]; linarith),
      List.filter_cons_of_neg (by simp only [decide_eq_true_eq, not_le]; linarith),
      List.filter_cons_of_neg (by simp only [decide_eq_true_eq, not_le]; linarith),
      List.filter_cons_of_neg (by simp only [decide_eq_true_eq, not_le]; linarith),
      List.filter_cons_of_neg (by simp only [decide_eq_true_eq, not_le]; linarith),
      List.filter_cons_of_neg (by simp only [decide_eq_true_eq, not_le]; linarith),
      List.filter_cons_of_neg (by simp only [decide_eq_true_eq, not_le]; linarith),
      List.filter_cons_of_pos (by simp only [decide_eq_true_eq]; linarith)]
    rfl
  refine ⟨by rw [hsp, hgd], by rw [hgd]; linarith, ?_⟩
  intro a ha
  rw [hgd]
  fin_cases ha <;> intro hxa <;> linarith

/-- C3 (amended): a valid `set_channel` call snaps
`round(range/probe, 3)` (not the raw `range/probe`) up to the ladder: it
succeeds whenever that rounded value is at most 50, stores the ladder entry
at index `bisect_left`, and the stored volt range is a member of the
10-entry ladder, is at least the rounded request, is at most every ladder
entry at or above the rounded request (it is the smallest admissible entry),
and coincides with the spec-side `spec_smallest_ge`. -/
theorem C3_voltrange_snap (st : DevState) (channel : ℕ) (range offset probe : ℚ)
    (coupling : ℕ) (hch : channel = 0 ∨ channel = 1)
    (hoff : 0 ≤ offset ∧ offset ≤ 1) (hpr : 1 ≤ probe)
    (hlen : st.voltrange.length = 2)
    (hsnap : round3 (range / probe) ≤ 50) :
    (set_channel st channel range offset probe coupling).2 = none ∧
    (set_channel st channel range offset probe coupling).1.voltrange.getD channel 0
      = VOLT_RANGES.getD (find_ge VOLT_RANGES (round3 (range / probe))) 0 ∧
    (set_channel st channel range offset probe coupling).1.voltrange.getD channel 0
      ∈ VOLT_RANGES ∧
    round3 (range / probe)
      ≤ (set_channel st channel range offset probe coupling).1.voltrange.getD channel 0 ∧
    (∀ a ∈ VOLT_RANGES, round3 (range / probe) ≤ a →
      (set_channel st channel range offset probe coupling).1.voltrange.getD channel 0 ≤ a) ∧
    spec_smallest_ge (round3 (range / probe))
      = some ((set_channel st channel range offset probe coupling).1.voltrange.getD channel 0) := by
  obtain ⟨hsp, hlb, hmin⟩ := ladder_snap (round3 (range / probe)) hsnap
  have hlen10 : VOLT_RANGES.length = 10 := by rw [VOLT_RANGES]; rfl
  have hidx : find_ge VOLT_RANGES (round3 (range / probe)) < VOLT_RANGES.length := by
    have := find_ge_le_nine _ hsnap
    omega
  have hget : VOLT_RANGES[find_ge VOLT_RANGES (round3 (range / probe))]?
      = some (VOLT_RANGES.getD (find_ge VOLT_RANGES (round3 (range / probe))) 0) := by
    rw [List.getElem?_eq_getElem hidx, List.getD_eq_getElem _ _ hidx]
  have hmemg : VOLT_RANGES.getD (find_ge VOLT_RANGES (round3 (range / probe))) 0
      ∈ VOLT_RANGES := by
    rw [List.getD_eq_getElem _ _ hidx]
    exact List.getElem_mem hidx
  obtain ⟨a, b, hab⟩ := List.length_eq_two.mp hlen
  have hset : ∀ y : ℚ, (st.voltrange.set channel y).getD channel 0 = y := by
    intro y
    rw [hab]
    rcases hch with rfl | rfl <;> simp
  rw [set_channel, if_neg (not_not_intro hch), if_neg (not_not_intro hoff),
    if_neg (not_not_intro hpr), hget]
  refine ⟨rfl, ?_, ?_, ?_, ?_, ?_⟩
  · show ((st.voltrange.set channel _).getD channel 0) = _
    exact hset _
  · show ((st.voltrange.set channel _).getD channel 0) ∈ VOLT_RANGES
    rw [hset]
    exact hmemg
  · show round3 (range / probe) ≤ (st.voltrange.set channel _).getD channel 0
    rw [hset]
    exact hlb
  · intro a2 ha2 hxa2
    show (st.voltrange.set channel _).getD channel 0 ≤ a2
    rw [hset]
    exact hmin a2 ha2 hxa2
  · show spec_smallest_ge (round3 (range / probe))
      = some ((st.voltrange.set channel _).getD channel 0)
    rw [hset]
    exact hsp

/-- C3 witness: requesting 10 V at the probe with a x10 ratio succeeds and
stores the smallest ladder entry at or above `round(10/10, 3) = 1`, in
agreement with `spec_smallest_ge`. -/
theorem C3_voltrange_snap_witness :
    (set_channel initState 0 10 (1 / 2) 10 1).2 = none ∧
    (set_channel initState 0 10 (1 / 2) 10 1).1.voltrange.getD 0 0
      = VOLT_RANGES.getD (find_ge VOLT_RANGES (round3 (10 / 10))) 0 ∧
    (set_channel initState 0 10 (1 / 2) 10 1).1.voltrange.getD 0 0 ∈ VOLT_RANGES ∧
    round3 (10 / 10)
      ≤ (set_channel initState 0 10 (1 / 2) 10 1).1.voltrange.getD 0 0 ∧
    (∀ a ∈ VOLT_RANGES, round3 (10 / 10) ≤ a →
      (set_channel initState 0 10 (1 / 2) 10 1).1.voltrange.getD 0 0 ≤ a) ∧
    spec_smallest_ge (round3 (10 / 10))
      = some ((set_channel initState 0 10 (1 / 2) 10 1).1.voltrange.getD 0 0) := by
  have hr : round3 ((10 : ℚ) / 10) = (1000 : ℤ) / 1000 := round3_eq _ 1000
    (by norm_num) (by norm_num)
  exact C3_voltrange_snap initState 0 10 (1 / 2) 10 1 (Or.inl rfl)
    ⟨by norm_num, by norm_num⟩ (by norm_num) rfl (by rw [hr]; norm_num)

/-- C3 counterexample: for a requested 0.0504 V range with a x1 probe the
code stores 0.05 V (the snap of `round(0.0504, 3) = 0.05`), which is
smaller than `v/p`; the smallest ladder entry at or above `v/p` is 0.1 V. -/
theorem C3_snap_counterexample :
    (set_channel initState 0 (63 / 1250) (1 / 2) 1 1).1.voltrange.getD 0 0 = 1 / 20 ∧
    spec_smallest_ge (63 / 1250) = some (1 / 10) ∧
    some ((set_channel initState 0 (63 / 1250) (1 / 2) 1 1).1.voltrange.getD 0 0)
      ≠ spec_smallest_ge (63 / 1250) := by
  have hr : round3 ((63 / 1250 : ℚ) / 1) = (50 : ℤ) / 1000 := round3_eq _ 50
    (by norm_num) (by norm_num)
  have hfg : find_ge VOLT_RANGES ((50 : ℤ) / 1000) = 0 := by
    rw [find_ge, VOLT_RANGES]
    rw [List.takeWhile_cons_of_neg (by norm_num)]
    rfl
  have h1 : (set_channel initState 0 (63 / 1250) (1 / 2) 1 1).1.voltrange.getD 0 0
      = 1 / 20 := by
    rw [set_channel, if_neg (by norm_num), if_neg (by norm_num), if_neg (by norm_num),
      hr, hfg]
    norm_num [VOLT_RANGES, initState, push_channel]
  have h2 : spec_smallest_ge (63 / 1250) = some (1 / 10) := by
    rw [spec_smallest_ge, VOLT_RANGES]
    rw [List.filter_cons_of_neg (by norm_num)]
    rw [List.filter_cons_of_pos (by norm_num)]
    rfl
  refine ⟨h1, h2, ?_⟩
  rw [h1, h2]
  intro hc
  have := Option.some.inj hc
  norm_num at this

/-- C10: a `set_channel` request whose `round(range/probe, 3)` exceeds the
top ladder entry 50 indexes one position past the 10-entry tuple: the call
fails with `IndexError` (not the assertion-based invalid-argument
rejection) and no channel state field is modified. -/
theorem C10_set_channel_overflow (st : DevState) (channel : ℕ)
    (range offset probe : ℚ) (coupling : ℕ)
    (hch : channel = 0 ∨ channel = 1) (hoff : 0 ≤ offset ∧ offset ≤ 1)
    (hpr : 1 ≤ probe) (hsnap : 50 < round3 (range / probe)) :
    set_channel st channel range offset probe coupling = (st, some .indexError) := by
  have hget : VOLT_RANGES[find_ge VOLT_RANGES (round3 (range / probe))]? = none := by
    apply List.getElem?_eq_none
    rw [find_ge_all _ hsnap, VOLT_RANGES]
    rfl
  rw [set_channel, if_neg (not_not_intro hch), if_neg (not_not_intro hoff),
    if_neg (not_not_intro hpr), hget]

/-- C10 witness: a 5000 V request on a x1 probe fails with `IndexError` and
leaves the state untouched. -/
theorem C10_set_channel_overflow_witness :
    set_channel initState 0 5000 (1 / 2) 1 1 = (initState, some .indexError) := by
  have hr : round3 ((5000 : ℚ) / 1) = (5000000 : ℤ) / 1000 := round3_eq _ 5000000
    (by norm_num) (by norm_num)
  exact C10_set_channel_overflow initState 0 5000 (1 / 2) 1 1 (Or.inl rfl)
    ⟨by norm_num, by norm_num⟩ (by norm_num) (by rw [hr]; norm_num)

/-- `VDS1022._push_sampling` (source lines 1919-1940): queue the timebase,
roll-mode, deep-memory and peak-mode register writes and update the mirrored
settings.  `roll = none` selects the automatic roll threshold; `peak = none`
leaves peak mode untouched (Python `None`). -/
def push_sampling (st : DevState) (rate : ℚ) (roll peak : Option Bool) : DevState :=
  let prescaler := (push_sampling_calc rate).1
  let sr := (push_sampling_calc rate).2
  let rm := roll.getD (decide (sr < 2500))
  let st1 := if sr ≠ st.sampling_rate then
      { st with sampling_rate := sr, queue := pushCmd st.queue .SET_TIMEBASE prescaler }
    else st
  let st2 := if some rm ≠ st1.rollmode then
      { st1 with
        rollmode := some rm
        queue := pushCmd (pushCmd st1.queue .SET_ROLLMODE (if rm then 1 else 0))
          .SET_DEEPMEMORY (5100 + if rm then 3 else 0) }
    else st1
  let st3 := match peak with
    | some p =>
      if p ≠ st2.peakmode then
        { st2 with
          peakmode := p
          queue := pushCmd st2.queue .SET_PEAKMODE (if p then 1 else 0) }
      else st2
    | none => st2
  if rm then { st3 with trigger_position := 1 } else st3

/-- `VDS1022.set_sampling` (source lines 1892-1902). -/
def set_sampling (st : DevState) (rate : ℚ) (roll peak : Option Bool) :
    DevState × Option PyErr :=
  if ¬(5 / 2 ≤ rate ∧ rate ≤ 100000000) then (st, some .assertionError)
  else (push_sampling st rate roll peak, none)

/-- `VDS1022.set_timerange` (source lines 1905-1916): sampling rate for 5000
samples over the requested duration. -/
def set_timerange (st : DevState) (range : ℚ) (roll peak : Option Bool) :
    DevState × Option PyErr :=
  if ¬(5 / 2 ≤ 5000 / range ∧ 5000 / range ≤ 100000000) then (st, some .assertionError)
  else (push_sampling st (5000 / range) roll peak, none)

/-- Scale and translate factors of `Frame.__init__` (source lines 435-443). -/
structure FrameScale where
  sx : ℚ
  sy : ℚ
  tx : ℚ
  ty : ℚ
deriving DecidableEq

/-- `Frame.__init__`: `vr = voltrange[chl] * probe[chl]`,
`sx = 1 / sampling_rate`, `sy = vr / ADC_RANGE`,
`tx = offset / sampling_rate`, `ty = vr * -voltoffset[chl]`. -/
def mkFrameScale (st : DevState) (channel : ℕ) (offset : ℚ) : FrameScale :=
  let vr := st.voltrange.getD channel 0 * st.probe.getD channel 0
  { sx := 1 / st.sampling_rate
    sy := vr / 250
    tx := offset / st.sampling_rate
    ty := vr * -(st.voltoffset.getD channel 0) }

/-- `Frame._points` (source lines 446-453): the raw int8 samples clipped
into `[ADC_MIN, ADC_MAX] = [-125, 125]`. -/
def frame_points (buffer : List ℤ) : List ℤ := buffer.map (fun v => clipZ v (-125) 125)

theorem push_sampling_fields (st : DevState) (rate : ℚ) (roll peak : Option Bool) :
    (push_sampling st rate roll peak).sampling_rate = (push_sampling_calc rate).2 ∧
    (push_sampling st rate roll peak).voltrange = st.voltrange ∧
    (push_sampling st rate roll peak).probe = st.probe ∧
    (push_sampling st rate roll peak).voltoffset = st.voltoffset ∧
    (push_sampling st rate roll peak).calibration = st.calibration := by
  cases peak with
  | none =>
    simp only [push_sampling]
    split_ifs <;> simp_all
  | some p =>
    simp only [push_sampling]
    split_ifs <;> simp_all

theorem push_channel_fields (st : DevState) (chl : ℕ) :
    (push_channel st chl).voltrange = st.voltrange ∧
    (push_channel st chl).probe = st.probe ∧
    (push_channel st chl).sampling_rate = st.sampling_rate ∧
    (push_channel st chl).voltoffset = st.voltoffset := by
  simp [push_channel]

theorem frame_points_clipped (buffer : List ℤ) :
    ∀ v ∈ frame_points buffer, -125 ≤ v ∧ v ≤ 125 := by
  intro v hv
  rw [frame_points, List.mem_map] at hv
  obtain ⟨w, _, rfl⟩ := hv
  rw [clipZ]
  split_ifs <;> omega

theorem c9_state_eval (st : DevState) (h2 : st.voltrange.length = 2)
    (h3 : st.probe.length = 2) :
    (set_timerange st (1 / 50) none (some false)).2 = none ∧
    (set_channel (set_timerange st (1 / 50) none (some false)).1
      0 10 (1 / 2) 10 1).2 = none ∧
    (set_channel (set_timerange st (1 / 50) none (some false)).1
      0 10 (1 / 2) 10 1).1.voltrange.getD 0 0 = 1 ∧
    (set_channel (set_timerange st (1 / 50) none (some false)).1
      0 10 (1 / 2) 10 1).1.probe.getD 0 0 = 10 ∧
    (set_channel (set_timerange st (1 / 50) none (some false)).1
      0 10 (1 / 2) 10 1).1.sampling_rate = 250000 := by
  have htr : set_timerange st (1 / 50) none (some false)
      = (push_sampling st (5000 / (1 / 50)) none (some false), none) := by
    rw [set_timerange, if_neg (not_not_intro ⟨by norm_num, by norm_num⟩)]
  set st1 := push_sampling st (5000 / (1 / 50)) none (some false) with hst1
  have hfield := push_sampling_fields st (5000 / (1 / 50)) none (some false)
  have hpy : pyround ((100000000 : ℚ) / (5000 / (1 / 50))) = 400 :=
    pyround_eq _ 400 (by norm_num) (by norm_num)
  have hp2 : (push_sampling_calc (5000 / (1 / 50))).2 = 250000 := by
    simp only [push_sampling_calc]
    rw [max_eq_right (by norm_num : (3 : ℚ) ≤ 5000 / (1 / 50)), hpy]
    norm_num
  have hsr : st1.sampling_rate = 250000 := by rw [hfield.1, hp2]
  have hvr1 : st1.voltrange = st.voltrange := hfield.2.1
  have hpb1 : st1.probe = st.probe := hfield.2.2.1
  have hr1 : round3 ((10 : ℚ) / 10) = 1 := by
    rw [round3_eq _ 1000 (by norm_num) (by norm_num)]
    norm_num
  have hfg : find_ge VOLT_RANGES 1 = 4 := by
    rw [find_ge, VOLT_RANGES]
    rw [List.takeWhile_cons_of_pos (by norm_num)]
    rw [List.takeWhile_cons_of_pos (by norm_num)]
    rw [List.takeWhile_cons_of_pos (by norm_num)]
    rw [List.takeWhile_cons_of_pos (by norm_num)]
    rw [List.takeWhile_cons_of_neg (by norm_num)]
    rfl
  have hget : VOLT_RANGES[(4 : ℕ)]? = some 1 := by rw [VOLT_RANGES]; rfl
  have hsc : set_channel st1 0 10 (1 / 2) 10 1
      = (push_channel { st1 with
          chl_on := st1.chl_on.set 0 true
          coupling := st1.coupling.set 0 1
          voltrange := st1.voltrange.set 0 1
          voltoffset := st1.voltoffset.set 0 (1 / 2 - 1 / 2)
          probe := st1.probe.set 0 10 } 0, none) := by
    rw [set_channel, if_neg (by norm_num), if_neg (by norm_num), if_neg (by norm_num),
      hr1, hfg, hget]
  rw [htr]
  have hpc := push_channel_fields { st1 with
      chl_on := st1.chl_on.set 0 true
      coupling := st1.coupling.set 0 1
      voltrange := st1.voltrange.set 0 1
      voltoffset := st1.voltoffset.set 0 (1 / 2 - 1 / 2)
      probe := st1.probe.set 0 10 } 0
  refine ⟨rfl, ?_, ?_, ?_, ?_⟩
  · show (set_channel st1 0 10 (1 / 2) 10 1).2 = none
    rw [hsc]
  · show (set_channel st1 0 10 (1 / 2) 10 1).1.voltrange.getD 0 0 = 1
    rw [hsc]
    simp only [hpc.1]
    obtain ⟨a, b, hab⟩ := List.length_eq_two.mp (hvr1 ▸ h2 : st1.voltrange.length = 2)
    rw [hab]
    rfl
  · show (set_channel st1 0 10 (1 / 2) 10 1).1.probe.getD 0 0 = 10
    rw [hsc]
    simp only [hpc.2.1]
    obtain ⟨a, b, hab⟩ := List.length_eq_two.mp (hpb1 ▸ h3 : st1.probe.length = 2)
    rw [hab]
    rfl
  · show (set_channel st1 0 10 (1 / 2) 10 1).1.sampling_rate = 250000
    rw [hsc]
    simp only [hpc.2.2.1]
    exact hsr

/-- C9 (amended): after `set_timerange('20ms')` and
`set_channel(CH1, range=10, offset=0.5, probe=10, coupling=DC)` the CH1
frame scale has `sy = 1 * 10 / 250 = 0.04` volts per sample (the stored
volt range is the ladder snap of `10/10 = 1`, multiplied by the probe),
`sx = 1 / sampling_rate = 1 / 250000` seconds per sample, and the raw
samples are clipped into `[-125, 125]`. -/
theorem C9_frame_scale (st : DevState) (h2 : st.voltrange.length = 2)
    (h3 : st.probe.length = 2) :
    (set_timerange st (1 / 50) none (some false)).2 = none ∧
    (set_channel (set_timerange st (1 / 50) none (some false)).1
      0 10 (1 / 2) 10 1).2 = none ∧
    (∀ offset : ℚ,
      (mkFrameScale (set_channel (set_timerange st (1 / 50) none (some false)).1
        0 10 (1 / 2) 10 1).1 0 offset).sy = 1 / 25 ∧
      (mkFrameScale (set_channel (set_timerange st (1 / 50) none (some false)).1
        0 10 (1 / 2) 10 1).1 0 offset).sx = 1 / 250000) ∧
    ∀ buffer : List ℤ, ∀ v ∈ frame_points buffer, -125 ≤ v ∧ v ≤ 125 := by
  obtain ⟨e1, e2, hv, hp, hs⟩ := c9_state_eval st h2 h3
  refine ⟨e1, e2, ?_, fun buffer => frame_points_clipped buffer⟩
  intro offset
  constructor
  · show _ * _ / 250 = (1 : ℚ) / 25
    rw [hv, hp]
    norm_num
  · show 1 / _ = (1 : ℚ) / 250000
    rw [hs]

/-- C9 witness: the frame-scale theorem applied to the default device
state. -/
theorem C9_frame_scale_witness :
    (mkFrameScale (set_channel (set_timerange initState (1 / 50) none (some false)).1
      0 10 (1 / 2) 10 1).1 0 0).sy = 1 / 25 ∧
    (mkFrameScale (set_channel (set_timerange initState (1 / 50) none (some false)).1
      0 10 (1 / 2) 10 1).1 0 0).sx = 1 / 250000 :=
  (C9_frame_scale initState rfl rfl).2.2.1 0

/-- C9 counterexample: for the configuration of the claim the code computes
`sy = 0.04`, not the claimed `10 * 10 / 250 = 0.4`: `set_channel` stores
`range/probe` snapped to the ladder (1 V), not the 10 V seen at the probe. -/
theorem C9_sy_counterexample :
    (mkFrameScale (set_channel (set_timerange initState (1 / 50) none (some false)).1
      0 10 (1 / 2) 10 1).1 0 0).sy = 1 / 25 ∧
    (mkFrameScale (set_channel (set_timerange initState (1 / 50) none (some false)).1
      0 10 (1 / 2) 10 1).1 0 0).sy ≠ 10 * 10 / 250 := by
  obtain ⟨e1, e2, hv, hp, hs⟩ := c9_state_eval initState rfl rfl
  have hsy : (mkFrameScale (set_channel (set_timerange initState (1 / 50) none
      (some false)).1 0 10 (1 / 2) 10 1).1 0 0).sy = 1 / 25 := by
    show _ * _ / 250 = (1 : ℚ) / 25
    rw [hv, hp]
    norm_num
  refine ⟨hsy, ?_⟩
  rw [hsy]
  norm_num

/-- Python `int(x)` on a float: truncation toward zero. -/
def pytrunc (q : ℚ) : ℤ := if q < 0 then ⌈q⌉ else ⌊q⌋

/-- Python modulo on floats (result carries the divisor sign; only used
here with positive divisors). -/
def qmod (a b : ℚ) : ℚ := a - b * ⌊a / b⌋

/-- `_u8` (source line 324): `x & 0xff`. -/
def u8z (x : ℤ) : ℤ := x % 256

/-- `_u16` (source line 326): `lsb & 0xff | (msb & 0xff) << 8`. -/
def u16z (lsb msb : ℤ) : ℤ := lsb % 256 + (msb % 256) * 256

/-- `_swap16` (source line 328): `(x & 0xff00) >> 8 | (x & 0x00ff) << 8`. -/
def swap16 (x : ℕ) : ℕ := (x / 256) % 256 + (x % 256) * 256

/-- `_iexp10` (source lines 333-338): reduce to an unsigned mantissa at most
`limit` and a base-10 exponent; the division loop is given an iteration
bound far beyond any representable input. -/
def iexp10_aux (limit : ℚ) : ℕ → ℚ → ℕ → ℤ × ℕ
  | 0, m, e => (pyround m, e)
  | n + 1, m, e =>
    if limit < m then iexp10_aux limit n (m / 10) (e + 1) else (pyround m, e)

def iexp10 (value limit : ℚ) : ℤ × ℕ := iexp10_aux limit 64 value 0

/-- Width and trigger-word part of `VDS1022.set_trigger` (source lines
2024-2069), shared by the external and channel paths: queue the pulse/slope
width registers (encoding gated on the firmware version), the holdoff
register, and the packed 16-bit trigger word; the `VIDEO` mode falls through
to a `NotImplementedError` raised after the holdoff push, so that push stays
queued.  The low bit-fields of the register words are disjoint, so the
source's `|` composition is written as addition where the operands mix
signs. -/
def set_trigger_tail (st : DevState) (source mode : ℕ) (condition : ℤ)
    (alternate : Bool) (width holdoff : ℚ) (sweep : ℕ) : DevState × Option PyErr :=
  let st1 := if mode = 3 ∨ mode = 2 then
      if st.vfpga < 3 then
        let me := iexp10 (width * 100000000) 1023
        if condition = 1 ∨ condition = 4 - 128 then
          let equ_h : ℤ := pytrunc ((me.1 : ℚ) * (21 / 20)) * 64 + (me.2 &&& 7 : ℕ)
          let equ_l : ℤ := pytrunc ((me.1 : ℚ) * (19 / 20))
          let sta := { st with queue := pushCmd st.queue (.SET_TRG_CDT_EQU_H source) equ_h }
          { sta with queue := pushCmd sta.queue (.SET_TRG_CDT_EQU_L source) equ_l }
        else
          let sta := { st with queue := pushCmd st.queue (.SET_TRG_CDT_GL source) me.1 }
          { sta with queue := pushCmd sta.queue (.SET_TRG_CDT_EQU_H source) (me.2 : ℤ) }
      else
        let m := width * 100000000
        let gl : ℤ := pytrunc (qmod m 65536)
        let hl : ℤ := pytrunc (m / 65536)
        let sta := { st with queue := pushCmd st.queue (.SET_TRG_CDT_GL source) gl }
        { sta with queue := pushCmd sta.queue (.SET_TRG_CDT_HL source) hl }
    else st
  let mh := iexp10 (holdoff * 100000000) 1023
  let hold_word : ℤ := (swap16 (mh.1.toNat <<< 6 ||| (mh.2 &&& 7)) : ℕ)
  let st2 := { st1 with queue := pushCmd st1.queue (.SET_TRG_HOLDOFF (source &&& 1)) hold_word }
  let trg0 : ℕ := (if source = 2 then 1 else 0) ||| (if alternate then 1 else 0) <<< 15
  let trg1 : ℕ := if alternate then
      trg0 ||| (source &&& 1) <<< 14 ||| (mode &&& 2) <<< 7 ||| (mode &&& 1) <<< 13
    else
      trg0 ||| (source &&& 1) <<< 13 ||| (mode &&& 2) <<< 13 ||| (mode &&& 1) <<< 8
  let sweep_bits : ℕ := if alternate then 0 else sweep &&& 3
  if mode = 0 then
    let trg := trg1 ||| (if condition < 0 then 1 else 0) <<< 12 ||| sweep_bits <<< 10
    ({ st2 with queue := pushCmd st2.queue .SET_TRIGGER (trg : ℤ) }, none)
  else if mode = 3 ∨ mode = 2 then
    let trg := trg1 ||| (condition % 8).toNat <<< 5 ||| sweep_bits <<< 10
    ({ st2 with queue := pushCmd st2.queue .SET_TRIGGER (trg : ℤ) }, none)
  else (st2, some .notImplementedError)

/-- `VDS1022.set_trigger` (source lines 1943-2069).  The sweep mode, the
`SET_MULTI`, `SET_PRE_TRG` and `SET_SUF_TRG` pushes and the stored trigger
position all happen before the trigger level is validated, so a rejected
level leaves them in place.  Mode constants: 0 `EDGE`, 1 `VIDEO`, 2 `SLOPE`,
3 `PULSE`; channel 2 is the external input. -/
def set_trigger (st : DevState) (source mode : ℕ) (condition : ℤ)
    (position : ℚ) (levels : List ℚ) (width holdoff : ℚ) (sweep : ℕ) :
    DevState × Option PyErr :=
  let st0 := { st with sweepmode := sweep }
  let alternate : Bool := source != 2 && !st0.queue.isEmpty &&
    (st0.queue.getLast?.map Prod.fst == some CmdKey.SET_TRIGGER)
  let multi : ℤ := if source = 2 then 2 else 0
  let sta := { st0 with queue := pushCmd st0.queue .SET_MULTI multi }
  let htp := pyround (5000 * clip (1 / 2 - position) (-(1 / 2)) (1 / 2))
  let stb := { sta with queue := pushCmd sta.queue .SET_PRE_TRG (2550 - htp - 11) }
  let stc := { stb with queue := pushCmd stb.queue .SET_SUF_TRG (2550 + htp + 11) }
  let std := { stc with trigger_position := position }
  if source = 2 then
    if mode ≠ 0 then (std, some .assertionError)
    else set_trigger_tail std source mode condition alternate width holdoff sweep
  else
    let vr := std.probe.getD source 0 * std.voltrange.getD source 0
    let lvls := levels.map (fun v =>
      pyround ((v / vr + std.voltoffset.getD source 0) * 250))
    if mode = 0 ∨ mode = 3 then
      if levels.length ≠ 1 then (std, some .assertionError)
      else
        let v := lvls.getD 0 0 + (if condition < 0 then 10 else 0)
        if ¬(-115 ≤ v ∧ v ≤ 125) then (std, some .assertionError)
        else
          let ste := { std with queue := pushCmd std.queue (.SET_EDGE_LEVEL source) (u16z v (v - 10)) }
          let stf := { ste with queue := pushCmd ste.queue (.SET_FREQREF source) (u8z (v - 5)) }
          set_trigger_tail stf source mode condition alternate width holdoff sweep
    else if mode = 2 then
      if levels.length ≠ 2 then (std, some .assertionError)
      else if ¬(-125 ≤ lvls.getD 0 0 ∧ lvls.getD 0 0 ≤ 125) then
        (std, some .assertionError)
      else if ¬(-125 ≤ lvls.getD 1 0 ∧ lvls.getD 1 0 ≤ 125) then
        (std, some .assertionError)
      else
        let thred : ℤ := u16z (max (lvls.getD 0 0) (lvls.getD 1 0)) (min (lvls.getD 0 0) (lvls.getD 1 0))
        let ste := { std with queue := pushCmd std.queue (.SET_SLOPE_THRED source) thred }
        let stf := { ste with queue := pushCmd ste.queue (.SET_FREQREF source) (u8z ((lvls.getD 0 0 + lvls.getD 1 0).fdiv 2)) }
        set_trigger_tail stf source mode condition alternate width holdoff sweep
    else
      set_trigger_tail std source mode condition alternate width holdoff sweep

theorem set_trigger_edge_reject_aux (st : DevState) (source : ℕ) (condition : ℤ)
    (position : ℚ) (lv width holdoff : ℚ) (sweep : ℕ)
    (hsrc : source = 0 ∨ source = 1)
    (hlvl : ¬(-115 ≤ pyround ((lv / (st.probe.getD source 0 * st.voltrange.getD source 0)
        + st.voltoffset.getD source 0) * 250) + (if condition < 0 then 10 else 0) ∧
      pyround ((lv / (st.probe.getD source 0 * st.voltrange.getD source 0)
        + st.voltoffset.getD source 0) * 250) + (if condition < 0 then 10 else 0) ≤ 125)) :
    set_trigger st source 0 condition position [lv] width holdoff sweep =
      ({ st with
          sweepmode := sweep
          trigger_position := position
          queue := pushCmd (pushCmd (pushCmd st.queue .SET_MULTI 0)
            .SET_PRE_TRG (2550 - pyround (5000 * clip (1 / 2 - position) (-(1 / 2)) (1 / 2)) - 11))
            .SET_SUF_TRG (2550 + pyround (5000 * clip (1 / 2 - position) (-(1 / 2)) (1 / 2)) + 11) },
        some .assertionError) := by
  have hs2 : ¬(source = 2) := by rcases hsrc with rfl | rfl <;> norm_num
  simp only [set_trigger, if_neg hs2, List.map_cons, List.map_nil, List.length_cons,
    List.length_nil, List.getD_cons_zero]
  norm_num
  intro ha hb
  simp only [List.getD_eq_getElem?_getD] at hlvl
  exact absurd ⟨ha, hb⟩ hlvl

/-- C7 (amended): an edge-mode `set_trigger` whose converted trigger level
falls outside `[ADC_MIN + 10, ADC_MAX]` fails with the invalid-argument
assertion, but not before queueing: the failed call leaves `SET_MULTI`,
`SET_PRE_TRG` and `SET_SUF_TRG` pending (and the sweep mode and trigger
position updated), while the level-dependent commands are not queued. -/
theorem C7_set_trigger_level_reject (st : DevState) (source : ℕ) (condition : ℤ)
    (position : ℚ) (lv width holdoff : ℚ) (sweep : ℕ)
    (hsrc : source = 0 ∨ source = 1)
    (hlvl : ¬(-115 ≤ pyround ((lv / (st.probe.getD source 0 * st.voltrange.getD source 0)
        + st.voltoffset.getD source 0) * 250) + (if condition < 0 then 10 else 0) ∧
      pyround ((lv / (st.probe.getD source 0 * st.voltrange.getD source 0)
        + st.voltoffset.getD source 0) * 250) + (if condition < 0 then 10 else 0) ≤ 125)) :
    set_trigger st source 0 condition position [lv] width holdoff sweep =
      ({ st with
          sweepmode := sweep
          trigger_position := position
          queue := pushCmd (pushCmd (pushCmd st.queue .SET_MULTI 0)
            .SET_PRE_TRG (2550 - pyround (5000 * clip (1 / 2 - position) (-(1 / 2)) (1 / 2)) - 11))
            .SET_SUF_TRG (2550 + pyround (5000 * clip (1 / 2 - position) (-(1 / 2)) (1 / 2)) + 11) },
        some .assertionError) :=
  set_trigger_edge_reject_aux st source condition position lv width holdoff sweep hsrc hlvl

theorem c7_hlvl_concrete :
    ¬(-115 ≤ pyround (((1000000 : ℚ) / (initState.probe.getD 0 0 * initState.voltrange.getD 0 0)
        + initState.voltoffset.getD 0 0) * 250) + (if (0 : ℤ) < 0 then 10 else 0) ∧
      pyround (((1000000 : ℚ) / (initState.probe.getD 0 0 * initState.voltrange.getD 0 0)
        + initState.voltoffset.getD 0 0) * 250) + (if (0 : ℤ) < 0 then 10 else 0) ≤ 125) := by
  have hprobe : initState.probe.getD 0 0 = 10 := rfl
  have hvr : initState.voltrange.getD 0 0 = 2 := rfl
  have hvo : initState.voltoffset.getD 0 0 = 0 := rfl
  rw [hprobe, hvr, hvo]
  have harg : ((1000000 : ℚ) / (10 * 2) + 0) * 250 = 12500000 := by norm_num
  rw [harg]
  rw [pyround_eq _ 12500000 (by norm_num) (by norm_num)]
  norm_num

/-- C7 witness: the rejection theorem applied to a 1 MV edge level request
on CH1 of the default state. -/
theorem C7_set_trigger_level_reject_witness :
    set_trigger initState 0 0 0 (1 / 2) [1000000] (3 / 100000000) (1 / 10000000) 2 =
      ({ initState with
          sweepmode := 2
          trigger_position := 1 / 2
          queue := pushCmd (pushCmd (pushCmd initState.queue .SET_MULTI 0)
            .SET_PRE_TRG (2550 - pyround (5000 * clip (1 / 2 - 1 / 2) (-(1 / 2)) (1 / 2)) - 11))
            .SET_SUF_TRG (2550 + pyround (5000 * clip (1 / 2 - 1 / 2) (-(1 / 2)) (1 / 2)) + 11) },
        some .assertionError) :=
  C7_set_trigger_level_reject initState 0 0 (1 / 2) 1000000 (3 / 100000000)
    (1 / 10000000) 2 (Or.inl rfl) c7_hlvl_concrete

/-- C7 counterexample: the out-of-range trigger level is rejected, yet the
pending command queue is not the same as before the call: three commands
were already queued when the validation failed. -/
theorem C7_queue_counterexample :
    (set_trigger initState 0 0 0 (1 / 2) [1000000] (3 / 100000000) (1 / 10000000) 2).2
      = some .assertionError ∧
    (set_trigger initState 0 0 0 (1 / 2) [1000000] (3 / 100000000) (1 / 10000000) 2).1.queue
      ≠ initState.queue := by
  have h := set_trigger_edge_reject_aux initState 0 0 (1 / 2) 1000000 (3 / 100000000)
    (1 / 10000000) 2 (Or.inl rfl) c7_hlvl_concrete
  rw [h]
  refine ⟨rfl, ?_⟩
  intro hc
  rw [pushCmd] at hc
  have hnil : initState.queue = [] := rfl
  rw [hnil] at hc
  simp at hc

/-- The calibration table: 3 matrices x 2 channels x 10 volt ranges. -/
abbrev Cal := List (List (List ℤ))

/-- Per-channel running state of `_calibrate`:
`hits, steps, cal_prev, err_prev` (source line 2590), initially zero. -/
structure ChState where
  hits : ℕ
  steps : ℤ
  cal_prev : ℤ
  err_prev : ℚ
deriving DecidableEq

instance : Inhabited ChState := ⟨⟨0, 0, 0, 0⟩⟩

/-- Write one entry of the calibration table `calibration[ical][chl][vb]`. -/
def calSet (cal : Cal) (ical chl vb : ℕ) (v : ℤ) : Cal :=
  cal.set ical ((cal.getD ical []).set chl (((cal.getD ical []).getD chl []).set vb v))

/-- One channel step of a `_calibrate` round (source lines 2613-2635):
`mean` is the sampled ADC mean for this channel, the device feedback to the
corrections pushed at the start of the round.  A channel with three
consecutive small errors at unit step size is converged and turned off,
rolling back its last correction if it made the error worse. -/
def calibrate_chl (ical vb : ℕ) (target mean : ℚ) (chl : ℕ)
    (acc : Cal × List ChState × List Bool) : Cal × List ChState × List Bool :=
  let s := acc.2.1.getD chl default
  let c := calGet acc.1 ical chl vb
  let err := mean - target
  let hits := if s.steps = 1 ∧ |err| < 2 then s.hits + 1 else 0
  let scale := if s.steps ≠ 0 then (s.steps : ℚ) / max (1 / 2) |s.err_prev - err| else 1
  if hits < 3 then
    let ceiling : ℤ := if |err| < 10 then s.steps - 1 else 100
    let steps := max 1 (min ceiling ⌈|err| * scale⌉)
    let correction := if (if target ≤ 0 then err else -err) < 0 then -steps else steps
    (calSet acc.1 ical chl vb (c + correction),
      acc.2.1.set chl ⟨hits, steps, c, err⟩, acc.2.2)
  else
    let cal2 := if |s.err_prev| < |err| then calSet acc.1 ical chl vb s.cal_prev else acc.1
    (cal2, acc.2.1, acc.2.2.set chl false)

/-- One round of `_calibrate` (source lines 2599-2637): the corrections are
pushed and submitted, then every channel that was enabled when the round
started is sampled and processed in order. -/
def calibrate_round (ical vb : ℕ) (target : ℚ) (means : ℕ → ℚ)
    (acc : Cal × List ChState × List Bool) : Cal × List ChState × List Bool :=
  let on0 := acc.2.2
  (List.range 2).foldl
    (fun a chl => if on0.getD chl false then
        calibrate_chl ical vb target (means chl) chl a
      else a)
    acc

/-- The round loop of `_calibrate`: up to 10 rounds, succeeding as soon as
no channel is left enabled and raising (`Except.error`) once the budget is
exhausted (source lines 2599-2640). -/
def calibrate_rounds (ical vb : ℕ) (target : ℚ) (means : ℕ → ℕ → ℚ) :
    ℕ → ℕ → Cal × List ChState × List Bool → Except Unit Cal
  | _, 0, _ => .error ()
  | i, fuel + 1, acc =>
    let acc2 := calibrate_round ical vb target (means i) acc
    if acc2.2.2.any id then calibrate_rounds ical vb target means (i + 1) fuel acc2
    else .ok acc2.1

/-- `VDS1022._calibrate` (source lines 2587-2640) for one (matrix,
volt-range) pair: both channels start enabled with zeroed loop state and
run for at most 10 rounds. -/
def calibrate_run (ical vb : ℕ) (target : ℚ) (means : ℕ → ℕ → ℚ) (cal : Cal) :
    Except Unit Cal :=
  calibrate_rounds ical vb target means 0 10 (cal, List.replicate 2 default, [true, true])

/-- The (matrix, volt-range, target) schedule of `VDS1022.calibrate`
(source lines 2571-2577): zero-compensation (matrix 2) from the highest
volt range down with target 0, then zero-amplitude (matrix 1) from the
lowest up with target -100. -/
def calibrate_phases : List (ℕ × ℕ × ℚ) :=
  (List.range 10).reverse.map (fun vb => (2, vb, 0)) ++
    (List.range 10).map (fun vb => (1, vb, -100))

/-- Run the calibration phases in order on the working table; a raise from
any phase aborts the remaining ones. -/
def run_phases (means : ℕ → ℕ → ℕ → ℚ) : List (ℕ × ℕ × ℚ) → ℕ → Cal → Except Unit Cal
  | [], _, cal => .ok cal
  | p :: rest, k, cal =>
    match calibrate_run p.1 p.2.1 p.2.2 (fun i chl => means k i chl) cal with
    | .ok cal2 => run_phases means rest (k + 1) cal2
    | .error e => .error e

/-- The clipping of the working copy before calibration (source lines
2565-2569): AMPL into [100, 200], COMP into [500, 600]. -/
def clip_cal (cal : Cal) : Cal :=
  let c1 := cal.set 1 ((cal.getD 1 []).map (fun row => row.map (fun x => clipZ x 100 200)))
  c1.set 2 ((c1.getD 2 []).map (fun row => row.map (fun x => clipZ x 500 600)))

/-- Device-visible calibration state: the table held by the device object
and the persisted calibration file (the external store written by
`_save_calibration`). -/
structure DevCal where
  table : Cal
  savedFile : Option Cal
deriving DecidableEq

/-- `VDS1022.calibrate` (source lines 2553-2584): the loops work on a deep
copy of the table with COMP/AMPL clipped; only after every phase succeeds
are the device table reassigned and the file saved - a raise from
`_calibrate` propagates out of the method before either mutation, so the
device state is returned unchanged together with the error. -/
def calibrate (means : ℕ → ℕ → ℕ → ℚ) (d : DevCal) : DevCal × Option Unit :=
  match run_phases means calibrate_phases 0 (clip_cal d.table) with
  | .ok newcal => ({ table := newcal, savedFile := some newcal }, none)
  | .error _ => (d, some ())

/-- C8: either some (matrix, volt-range) pair fails to converge within the
10-round budget, the whole run aborts and neither the device calibration
table nor the persisted file changes; or every phase converges and the new
table is assigned to the device state and saved, atomically. -/
theorem C8_calibrate_atomic (means : ℕ → ℕ → ℕ → ℚ) (d : DevCal) :
    (run_phases means calibrate_phases 0 (clip_cal d.table) = .error () ∧
      calibrate means d = (d, some ())) ∨
    (∃ newcal, run_phases means calibrate_phases 0 (clip_cal d.table) = .ok newcal ∧
      calibrate means d = ({ table := newcal, savedFile := some newcal }, none)) := by
  unfold calibrate
  split
  next newcal heq => right; exact ⟨newcal, heq, rfl⟩
  next e heq => left; cases e; exact ⟨heq, rfl⟩

/-- `struct.pack_into` semantics: overwrite `bs.length` bytes of `buf`
starting at `pos`. -/
def writeBytes (buf : List ℕ) (pos : ℕ) (bs : List ℕ) : List ℕ :=
  buf.take pos ++ bs ++ buf.drop (pos + bs.length)

/-- `<H`: unsigned 16-bit little endian. -/
def u16le (v : ℕ) : List ℕ := toLE v 2

/-- `<I`: unsigned 32-bit little endian. -/
def u32le (v : ℕ) : List ℕ := toLE v 4

/-- `_FlashStream` (source lines 269-300): a mutable byte buffer with a
write position that advances with every write. -/
structure FlashStream where
  buffer : List ℕ
  position : ℕ

def FlashStream.seek (s : FlashStream) (p : ℕ) : FlashStream := ⟨s.buffer, p⟩

def FlashStream.write (s : FlashStream) (bs : List ℕ) : FlashStream :=
  ⟨writeBytes s.buffer s.position bs, s.position + bs.length⟩

/-- The `<10H` encoding of one calibration row. -/
def rowBytes (row : List ℕ) : List ℕ := row.foldr (fun v acc => u16le v ++ acc) []

/-- The data `sync_flash` serializes besides the header. -/
structure FlashData where
  calibration : List (List (List ℕ))
  oem : ℕ
  version : List ℕ
  serial : List ℕ
  locales : List ℕ
  phasefine : ℕ

/-- `VDS1022.sync_flash` (source lines 1699-1719), image construction: a
2002-byte buffer of 0xff, the header word 0x55AA and version 2 at offset 0,
the six 10-value u16 calibration rows from offset 6, then OEM byte, two
null-terminated ASCII strings, 100 locale bytes and the phase-fine word
from offset 206. -/
def sync_flash_image (d : FlashData) : List ℕ :=
  let w0 : FlashStream := ⟨List.replicate 2002 255, 0⟩
  let w1 := w0.write (u16le 0x55AA ++ u32le 2)
  let w2 := w1.seek 6
  let w3 := (List.range 3).foldl (fun acc ical =>
      (List.range 2).foldl (fun acc2 chl =>
        acc2.write (rowBytes ((d.calibration.getD ical []).getD chl []))) acc) w2
  let w4 := w3.seek 206
  let w5 := w4.write [d.oem]
  let w6 := w5.write (d.version ++ [0])
  let w7 := w6.write (d.serial ++ [0])
  let w8 := w7.write d.locales
  let w9 := w8.write (u16le d.phasefine)
  w9.buffer

/-- `VDS1022.write_flash` (source lines 1670-1696): require a 2002-byte
image whose first two bytes are the sentinel in either order, then force
them to `0x55, 0xAA` before sending the image to the device. -/
def write_flash (buf : List ℕ) : Option (List ℕ) :=
  if buf.length = 2002 ∧ (buf.take 2 = [0x55, 0xAA] ∨ buf.take 2 = [0xAA, 0x55]) then
    some (writeBytes buf 0 [0x55, 0xAA])
  else none

/-- Decode a `<H` field at `pos`. -/
def readU16 (buf : List ℕ) (pos : ℕ) : ℕ := buf.getD pos 0 + 256 * buf.getD (pos + 1) 0

/-- `VDS1022._load_flash` (source lines 1723-1746), calibration part: the
three 2x10 u16 matrices read sequentially from offset 6. -/
def load_flash_matrices (buf : List ℕ) : List (List (List ℕ)) :=
  (List.range 3).map (fun ical => (List.range 2).map (fun chl =>
    (List.range 10).map (fun i => readU16 buf (6 + (ical * 2 + chl) * 20 + 2 * i))))

/-- `VDS1022._load_flash`: the `<H` flash header at offset 0. -/
def load_flash_header (buf : List ℕ) : ℕ := readU16 buf 0

theorem length_writeBytes (buf : List ℕ) (pos : ℕ) (bs : List ℕ)
    (h : pos + bs.length ≤ buf.length) :
    (writeBytes buf pos bs).length = buf.length := by
  simp [writeBytes]
  omega

theorem getD_writeBytes_before (buf : List ℕ) (pos : ℕ) (bs : List ℕ) (k : ℕ)
    (hpos : pos ≤ buf.length) (hk : k < pos) :
    (writeBytes buf pos bs).getD k 0 = buf.getD k 0 := by
  rw [writeBytes, List.append_assoc]
  rw [List.getD_append _ _ _ _ (by simp; omega)]
  have hk2 : k < (buf.take pos).length := by simp; omega
  rw [List.getD_eq_getElem _ _ hk2, List.getElem_take, List.getD_eq_getElem _ _ (by omega)]

theorem getD_writeBytes_in (buf : List ℕ) (pos : ℕ) (bs : List ℕ) (k : ℕ)
    (hpos : pos ≤ buf.length) (hk1 : pos ≤ k) (hk2 : k < pos + bs.length) :
    (writeBytes buf pos bs).getD k 0 = bs.getD (k - pos) 0 := by
  rw [writeBytes, List.append_assoc]
  rw [List.getD_append_right _ _ _ _ (by simp; omega)]
  have hlen : (buf.take pos).length = pos := by simp; omega
  rw [hlen]
  rw [List.getD_append _ _ _ _ (by omega)]

theorem getD_writeBytes_after (buf : List ℕ) (pos : ℕ) (bs : List ℕ) (k : ℕ)
    (hpos : pos ≤ buf.length) (hk : pos + bs.length ≤ k) :
    (writeBytes buf pos bs).getD k 0 = buf.getD k 0 := by
  rw [writeBytes, List.append_assoc]
  rw [List.getD_append_right _ _ _ _ (by simp; omega)]
  have hlen : (buf.take pos).length = pos := by simp; omega
  rw [hlen]
  rw [List.getD_append_right _ _ _ _ (by omega)]
  rcases Nat.lt_or_ge k buf.length with hlt | hge
  · have hd : k - pos - bs.length < (buf.drop (pos + bs.length)).length := by simp; omega
    rw [List.getD_eq_getElem _ _ hd, List.getElem_drop, List.getD_eq_getElem _ _ (by omega)]
    congr 1
    omega
  · rw [List.getD_eq_default _ _ (by simp; omega), List.getD_eq_default _ _ (by omega)]

theorem length_rowBytes (row : List ℕ) : (rowBytes row).length = 2 * row.length := by
  induction row with
  | nil => rfl
  | cons v rest ih => simp [rowBytes, u16le, toLE] at ih ⊢; omega

theorem rowBytes_getD (row : List ℕ) (hval : ∀ v ∈ row, v < 65536) (i : ℕ)
    (hi : i < row.length) :
    (rowBytes row).getD (2 * i) 0 + 256 * (rowBytes row).getD (2 * i + 1) 0
      = row.getD i 0 := by
  induction row generalizing i with
  | nil => simp at hi
  | cons v rest ih =>
    have hbytes : rowBytes (v :: rest) = v % 256 :: (v / 256 % 256) :: rowBytes rest := by
      simp [rowBytes, u16le, toLE]
    cases i with
    | zero =>
      rw [hbytes]
      simp only [Nat.mul_zero, List.getD_cons_zero, Nat.zero_add, List.getD_cons_succ]
      have hv : v < 65536 := hval v (List.mem_cons_self _ _)
      have h256 : v / 256 % 256 = v / 256 := Nat.mod_eq_of_lt (by omega)
      rw [h256]
      omega
    | succ j =>
      rw [hbytes]
      have h1 : 2 * (j + 1) = 2 * j + 1 + 1 := by ring
      rw [h1]
      simp only [List.getD_cons_succ]
      exact ih (fun w hw => hval w (List.mem_cons_of_mem _ hw)) j (by simpa using hi)

theorem take_writeBytes_of_le (buf : List ℕ) (pos : ℕ) (bs : List ℕ) (n : ℕ)
    (hpos : pos ≤ buf.length) (hn : n ≤ pos) :
    (writeBytes buf pos bs).take n = buf.take n := by
  rw [writeBytes, List.append_assoc]
  rw [List.take_append_of_le_length (by simp; omega)]
  rw [List.take_take, min_eq_left hn]

theorem sync_flash_image_eq (d : FlashData) (r00 r01 r10 r11 r20 r21 : List ℕ)
    (hcal : d.calibration = [[r00, r01], [r10, r11], [r20, r21]])
    (h00 : r00.length = 10) (h01 : r01.length = 10) (h10 : r10.length = 10)
    (h11 : r11.length = 10) (h20 : r20.length = 10) (h21 : r21.length = 10) :
    sync_flash_image d =
      writeBytes (writeBytes (writeBytes (writeBytes (writeBytes (writeBytes
        (writeBytes (writeBytes (writeBytes (writeBytes (writeBytes (writeBytes
          (List.replicate 2002 255) 0 (u16le 0x55AA ++ u32le 2))
          6 (rowBytes r00)) 26 (rowBytes r01)) 46 (rowBytes r10))
          66 (rowBytes r11)) 86 (rowBytes r20)) 106 (rowBytes r21))
          206 [d.oem]) 207 (d.version ++ [0]))
          (208 + d.version.length) (d.serial ++ [0]))
          (209 + d.version.length + d.serial.length) d.locales)
          (209 + d.version.length + d.serial.length + d.locales.length)
          (u16le d.phasefine) := by
  have hr3 : List.range 3 = [0, 1, 2] := rfl
  have hr2 : List.range 2 = [0, 1] := rfl
  have hl6 : (u16le 0x55AA ++ u32le 2).length = 6 := rfl
  have hl00 : (rowBytes r00).length = 20 := by rw [length_rowBytes, h00]
  have hl01 : (rowBytes r01).length = 20 := by rw [length_rowBytes, h01]
  have hl10 : (rowBytes r10).length = 20 := by rw [length_rowBytes, h10]
  have hl11 : (rowBytes r11).length = 20 := by rw [length_rowBytes, h11]
  have hl20 : (rowBytes r20).length = 20 := by rw [length_rowBytes, h20]
  have hl21 : (rowBytes r21).length = 20 := by rw [length_rowBytes, h21]
  simp only [sync_flash_image, hr3, hr2, List.foldl_cons, List.foldl_nil,
    FlashStream.write, FlashStream.seek, hcal, List.getD_cons_zero, List.getD_cons_succ,
    hl6, hl00, hl01, hl10, hl11, hl20, hl21, List.length_cons, List.length_nil,
    List.length_append]
  simp only [show ∀ a : ℕ, 207 + (a + 1) = 208 + a from fun _ => by omega,
    show ∀ a b : ℕ, 208 + a + (b + 1) = 209 + a + b from fun _ _ => by omega]

set_option maxHeartbeats 1600000 in
theorem flash_roundtrip_aux (d : FlashData)
    (h3 : d.calibration.length = 3)
    (h2 : ∀ m ∈ d.calibration, m.length = 2)
    (h10 : ∀ m ∈ d.calibration, ∀ row ∈ m, row.length = 10)
    (hval : ∀ m ∈ d.calibration, ∀ row ∈ m, ∀ v ∈ row, v < 65536)
    (hloc : d.locales.length = 100)
    (hstr : d.version.length + d.serial.length ≤ 1691) :
    write_flash (sync_flash_image d)
      = some (writeBytes (sync_flash_image d) 0 [85, 170]) ∧
    load_flash_matrices (writeBytes (sync_flash_image d) 0 [85, 170]) = d.calibration ∧
    load_flash_header (writeBytes (sync_flash_image d) 0 [85, 170]) = 0xAA55 := by
  obtain ⟨m0, m1, m2, hcal0⟩ := List.length_eq_three.mp h3
  obtain ⟨r00, r01, hm0⟩ := List.length_eq_two.mp (h2 m0 (by rw [hcal0]; simp))
  obtain ⟨r10, r11, hm1⟩ := List.length_eq_two.mp (h2 m1 (by rw [hcal0]; simp))
  obtain ⟨r20, r21, hm2⟩ := List.length_eq_two.mp (h2 m2 (by rw [hcal0]; simp))
  have hcal : d.calibration = [[r00, r01], [r10, r11], [r20, r21]] := by
    rw [hcal0, hm0, hm1, hm2]
  have hmem0 : m0 ∈ d.calibration := by rw [hcal0]; simp
  have hmem1 : m1 ∈ d.calibration := by rw [hcal0]; simp
  have hmem2 : m2 ∈ d.calibration := by rw [hcal0]; simp
  have h00 : r00.length = 10 := h10 m0 hmem0 r00 (by rw [hm0]; simp)
  have h01 : r01.length = 10 := h10 m0 hmem0 r01 (by rw [hm0]; simp)
  have h10l : r10.length = 10 := h10 m1 hmem1 r10 (by rw [hm1]; simp)
  have h11 : r11.length = 10 := h10 m1 hmem1 r11 (by rw [hm1]; simp)
  have h20 : r20.length = 10 := h10 m2 hmem2 r20 (by rw [hm2]; simp)
  have h21 : r21.length = 10 := h10 m2 hmem2 r21 (by rw [hm2]; simp)
  have hv00 : ∀ v ∈ r00, v < 65536 := hval m0 hmem0 r00 (by rw [hm0]; simp)
  have hv01 : ∀ v ∈ r01, v < 65536 := hval m0 hmem0 r01 (by rw [hm0]; simp)
  have hv10 : ∀ v ∈ r10, v < 65536 := hval m1 hmem1 r10 (by rw [hm1]; simp)
  have hv11 : ∀ v ∈ r11, v < 65536 := hval m1 hmem1 r11 (by rw [hm1]; simp)
  have hv20 : ∀ v ∈ r20, v < 65536 := hval m2 hmem2 r20 (by rw [hm2]; simp)
  have hv21 : ∀ v ∈ r21, v < 65536 := hval m2 hmem2 r21 (by rw [hm2]; simp)
  have himg := sync_flash_image_eq d r00 r01 r10 r11 r20 r21 hcal h00 h01 h10l h11 h20 h21
  rw [himg]
  set B1 := writeBytes (List.replicate 2002 255) 0 (u16le 0x55AA ++ u32le 2) with hB1
  set B2 := writeBytes B1 6 (rowBytes r00) with hB2
  set B3 := writeBytes B2 26 (rowBytes r01) with hB3
  set B4 := writeBytes B3 46 (rowBytes r10) with hB4
  set B5 := writeBytes B4 66 (rowBytes r11) with hB5
  set B6 := writeBytes B5 86 (rowBytes r20) with hB6
  set B7 := writeBytes B6 106 (rowBytes r21) with hB7
  set B8 := writeBytes B7 206 [d.oem] with hB8
  set B9 := writeBytes B8 207 (d.version ++ [0]) with hB9
  set B10 := writeBytes B9 (208 + d.version.length) (d.serial ++ [0]) with hB10
  set B11 := writeBytes B10 (209 + d.version.length + d.serial.length) d.locales with hB11
  set B12 := writeBytes B11 (209 + d.version.length + d.serial.length + d.locales.length)
    (u16le d.phasefine) with hB12
  have hlr00 : (rowBytes r00).length = 20 := by rw [length_rowBytes, h00]
  have hlr01 : (rowBytes r01).length = 20 := by rw [length_rowBytes, h01]
  have hlr10 : (rowBytes r10).length = 20 := by rw [length_rowBytes, h10l]
  have hlr11 : (rowBytes r11).length = 20 := by rw [length_rowBytes, h11]
  have hlr20 : (rowBytes r20).length = 20 := by rw [length_rowBytes, h20]
  have hlr21 : (rowBytes r21).length = 20 := by rw [length_rowBytes, h21]
  have hL1 : B1.length = 2002 := by
    rw [hB1, length_writeBytes _ _ _
      (by rw [List.length_append, List.length_replicate]; norm_num [u16le, u32le, length_toLE])]
    rw [List.length_replicate]
  have hL2 : B2.length = 2002 := by
    rw [hB2, length_writeBytes _ _ _ (by rw [hlr00, hL1]; omega)]
    exact hL1
  have hL3 : B3.length = 2002 := by
    rw [hB3, length_writeBytes _ _ _ (by rw [hlr01, hL2]; omega)]
    exact hL2
  have hL4 : B4.length = 2002 := by
    rw [hB4, length_writeBytes _ _ _ (by rw [hlr10, hL3]; omega)]
    exact hL3
  have hL5 : B5.length = 2002 := by
    rw [hB5, length_writeBytes _ _ _ (by rw [hlr11, hL4]; omega)]
    exact hL4
  have hL6 : B6.length = 2002 := by
    rw [hB6, length_writeBytes _ _ _ (by rw [hlr20, hL5]; omega)]
    exact hL5
  have hL7 : B7.length = 2002 := by
    rw [hB7, length_writeBytes _ _ _ (by rw [hlr21, hL6]; omega)]
    exact hL6
  have hL8 : B8.length = 2002 := by
    rw [hB8, length_writeBytes _ _ _ (by rw [hL7]; simp)]
    exact hL7
  have hL9 : B9.length = 2002 := by
    rw [hB9, length_writeBytes _ _ _ (by rw [hL8]; simp; omega)]
    exact hL8
  have hL10 : B10.length = 2002 := by
    rw [hB10, length_writeBytes _ _ _ (by rw [hL9]; simp; omega)]
    exact hL9
  have hL11 : B11.length = 2002 := by
    rw [hB11, length_writeBytes _ _ _ (by rw [hL10, hloc]; omega)]
    exact hL10
  have hL12 : B12.length = 2002 := by
    rw [hB12, length_writeBytes _ _ _
      (by rw [hL11, hloc]; simp [u16le, length_toLE]; omega)]
    exact hL11
  have hpeel : ∀ k, k < 206 → B12.getD k 0 = B7.getD k 0 := by
    intro k hk
    rw [hB12, getD_writeBytes_before _ _ _ _ (by rw [hL11]; omega) (by omega)]
    rw [hB11, getD_writeBytes_before _ _ _ _ (by rw [hL10]; omega) (by omega)]
    rw [hB10, getD_writeBytes_before _ _ _ _ (by rw [hL9]; omega) (by omega)]
    rw [hB9, getD_writeBytes_before _ _ _ _ (by rw [hL8]; omega) (by omega)]
    rw [hB8, getD_writeBytes_before _ _ _ _ (by rw [hL7]; omega) (by omega)]
  have hrow00 : ∀ o, o < 20 → B7.getD (6 + o) 0 = (rowBytes r00).getD o 0 := by
    intro o ho
    rw [hB7, getD_writeBytes_before _ _ _ _ (by rw [hL6]; omega) (by omega)]
    rw [hB6, getD_writeBytes_before _ _ _ _ (by rw [hL5]; omega) (by omega)]
    rw [hB5, getD_writeBytes_before _ _ _ _ (by rw [hL4]; omega) (by omega)]
    rw [hB4, getD_writeBytes_before _ _ _ _ (by rw [hL3]; omega) (by omega)]
    rw [hB3, getD_writeBytes_before _ _ _ _ (by rw [hL2]; omega) (by omega)]
    rw [hB2, getD_writeBytes_in _ _ _ _ (by rw [hL1]; omega) (by omega)
      (by rw [hlr00]; omega)]
    rw [show 6 + o - 6 = o from by omega]
  have hrow01 : ∀ o, o < 20 → B7.getD (26 + o) 0 = (rowBytes r01).getD o 0 := by
    intro o ho
    rw [hB7, getD_writeBytes_before _ _ _ _ (by rw [hL6]; omega) (by omega)]
    rw [hB6, getD_writeBytes_before _ _ _ _ (by rw [hL5]; omega) (by omega)]
    rw [hB5, getD_writeBytes_before _ _ _ _ (by rw [hL4]; omega) (by omega)]
    rw [hB4, getD_writeBytes_before _ _ _ _ (by rw [hL3]; omega) (by omega)]
    rw [hB3, getD_writeBytes_in _ _ _ _ (by rw [hL2]; omega) (by omega)
      (by rw [hlr01]; omega)]
    rw [show 26 + o - 26 = o from by omega]
  have hrow10 : ∀ o, o < 20 → B7.getD (46 + o) 0 = (rowBytes r10).getD o 0 := by
    intro o ho
    rw [hB7, getD_writeBytes_before _ _ _ _ (by rw [hL6]; omega) (by omega)]
    rw [hB6, getD_writeBytes_before _ _ _ _ (by rw [hL5]; omega) (by omega)]
    rw [hB5, getD_writeBytes_before _ _ _ _ (by rw [hL4]; omega) (by omega)]
    rw [hB4, getD_writeBytes_in _ _ _ _ (by rw [hL3]; omega) (by omega)
      (by rw [hlr10]; omega)]
    rw [show 46 + o - 46 = o from by omega]
  have hrow11 : ∀ o, o < 20 → B7.getD (66 + o) 0 = (rowBytes r11).getD o 0 := by
    intro o ho
    rw [hB7, getD_writeBytes_before _ _ _ _ (by rw [hL6]; omega) (by omega)]
    rw [hB6, getD_writeBytes_before _ _ _ _ (by rw [hL5]; omega) (by omega)]
    rw [hB5, getD_writeBytes_in _ _ _ _ (by rw [hL4]; omega) (by omega)
      (by rw [hlr11]; omega)]
    rw [show 66 + o - 66 = o from by omega]
  have hrow20 : ∀ o, o < 20 → B7.getD (86 + o) 0 = (rowBytes r20).getD o 0 := by
    intro o ho
    rw [hB7, getD_writeBytes_before _ _ _ _ (by rw [hL6]; omega) (by omega)]
    rw [hB6, getD_writeBytes_in _ _ _ _ (by rw [hL5]; omega) (by omega)
      (by rw [hlr20]; omega)]
    rw [show 86 + o - 86 = o from by omega]
  have hrow21 : ∀ o, o < 20 → B7.getD (106 + o) 0 = (rowBytes r21).getD o 0 := by
    intro o ho
    rw [hB7, getD_writeBytes_in _ _ _ _ (by rw [hL6]; omega) (by omega)
      (by rw [hlr21]; omega)]
    rw [show 106 + o - 106 = o from by omega]
  have houtg : ∀ k, 2 ≤ k → (writeBytes B12 0 [85, 170]).getD k 0 = B12.getD k 0 :=
    fun k hk => getD_writeBytes_after _ _ _ _ (by omega) (by simp; omega)
  have hu00 : ∀ i, i < 10 →
      readU16 (writeBytes B12 0 [85, 170]) (6 + 2 * i) = r00.getD i 0 := by
    intro i hi
    rw [readU16, houtg _ (by omega), houtg _ (by omega), hpeel _ (by omega),
      hpeel _ (by omega)]
    rw [show 6 + 2 * i + 1 = 6 + (2 * i + 1) from by omega]
    rw [hrow00 _ (by omega), hrow00 _ (by omega)]
    exact rowBytes_getD r00 hv00 i (by omega)
  have hu01 : ∀ i, i < 10 →
      readU16 (writeBytes B12 0 [85, 170]) (26 + 2 * i) = r01.getD i 0 := by
    intro i hi
    rw [readU16, houtg _ (by omega), houtg _ (by omega), hpeel _ (by omega),
      hpeel _ (by omega)]
    rw [show 26 + 2 * i + 1 = 26 + (2 * i + 1) from by omega]
    rw [hrow01 _ (by omega), hrow01 _ (by omega)]
    exact rowBytes_getD r01 hv01 i (by omega)
  have hu10 : ∀ i, i < 10 →
      readU16 (writeBytes B12 0 [85, 170]) (46 + 2 * i) = r10.getD i 0 := by
    intro i hi
    rw [readU16, houtg _ (by omega), houtg _ (by omega), hpeel _ (by omega),
      hpeel _ (by omega)]
    rw [show 46 + 2 * i + 1 = 46 + (2 * i + 1) from by omega]
    rw [hrow10 _ (by omega), hrow10 _ (by omega)]
    exact rowBytes_getD r10 hv10 i (by omega)
  have hu11 : ∀ i, i < 10 →
      readU16 (writeBytes B12 0 [85, 170]) (66 + 2 * i) = r11.getD i 0 := by
    intro i hi
    rw [readU16, houtg _ (by omega), houtg _ (by omega), hpeel _ (by omega),
      hpeel _ (by omega)]
    rw [show 66 + 2 * i + 1 = 66 + (2 * i + 1) from by omega]
    rw [hrow11 _ (by omega), hrow11 _ (by omega)]
    exact rowBytes_getD r11 hv11 i (by omega)
  have hu20 : ∀ i, i < 10 →
      readU16 (writeBytes B12 0 [85, 170]) (86 + 2 * i) = r20.getD i 0 := by
    intro i hi
    rw [readU16, houtg _ (by omega), houtg _ (by omega), hpeel _ (by omega),
      hpeel _ (by omega)]
    rw [show 86 + 2 * i + 1 = 86 + (2 * i + 1) from by omega]
    rw [hrow20 _ (by omega), hrow20 _ (by omega)]
    exact rowBytes_getD r20 hv20 i (by omega)
  have hu21 : ∀ i, i < 10 →
      readU16 (writeBytes B12 0 [85, 170]) (106 + 2 * i) = r21.getD i 0 := by
    intro i hi
    rw [readU16, houtg _ (by omega), houtg _ (by omega), hpeel _ (by omega),
      hpeel _ (by omega)]
    rw [show 106 + 2 * i + 1 = 106 + (2 * i + 1) from by omega]
    rw [hrow21 _ (by omega), hrow21 _ (by omega)]
    exact rowBytes_getD r21 hv21 i (by omega)
  have htake : B12.take 2 = [0xAA, 0x55] := by
    rw [hB12, take_writeBytes_of_le _ _ _ _ (by rw [hL11]; omega) (by omega)]
    rw [hB11, take_writeBytes_of_le _ _ _ _ (by rw [hL10]; omega) (by omega)]
    rw [hB10, take_writeBytes_of_le _ _ _ _ (by rw [hL9]; omega) (by omega)]
    rw [hB9, take_writeBytes_of_le _ _ _ _ (by rw [hL8]; omega) (by omega)]
    rw [hB8, take_writeBytes_of_le _ _ _ _ (by rw [hL7]; omega) (by omega)]
    rw [hB7, take_writeBytes_of_le _ _ _ _ (by rw [hL6]; omega) (by omega)]
    rw [hB6, take_writeBytes_of_le _ _ _ _ (by rw [hL5]; omega) (by omega)]
    rw [hB5, take_writeBytes_of_le _ _ _ _ (by rw [hL4]; omega) (by omega)]
    rw [hB4, take_writeBytes_of_le _ _ _ _ (by rw [hL3]; omega) (by omega)]
    rw [hB3, take_writeBytes_of_le _ _ _ _ (by rw [hL2]; omega) (by omega)]
    rw [hB2, take_writeBytes_of_le _ _ _ _ (by rw [hL1]; omega) (by omega)]
    rw [hB1]
    rfl
  refine ⟨?_, ?_, ?_⟩
  · rw [write_flash, if_pos ⟨hL12, Or.inr htake⟩]
  · rw [load_flash_matrices]
    have hrg3 : List.range 3 = [0, 1, 2] := rfl
    have hrg2 : List.range 2 = [0, 1] := rfl
    rw [hrg3, hrg2]
    simp only [List.map_cons, List.map_nil]
    rw [hcal]
    have e00 : (List.range 10).map
        (fun i => readU16 (writeBytes B12 0 [85, 170]) (6 + (0 * 2 + 0) * 20 + 2 * i))
        = r00 := by
      apply List.ext_getElem (by simp [h00])
      intro i hi1 hi2
      simp only [List.getElem_map, List.getElem_range]
      rw [show 6 + (0 * 2 + 0) * 20 + 2 * i = 6 + 2 * i from by omega]
      rw [hu00 i (by simpa using hi1), List.getD_eq_getElem _ _ (by omega)]
    have e01 : (List.range 10).map
        (fun i => readU16 (writeBytes B12 0 [85, 170]) (6 + (0 * 2 + 1) * 20 + 2 * i))
        = r01 := by
      apply List.ext_getElem (by simp [h01])
      intro i hi1 hi2
      simp only [List.getElem_map, List.getElem_range]
      rw [show 6 + (0 * 2 + 1) * 20 + 2 * i = 26 + 2 * i from by omega]
      rw [hu01 i (by simpa using hi1), List.getD_eq_getElem _ _ (by omega)]
    have e10 : (List.range 10).map
        (fun i => readU16 (writeBytes B12 0 [85, 170]) (6 + (1 * 2 + 0) * 20 + 2 * i))
        = r10 := by
      apply List.ext_getElem (by simp [h10l])
      intro i hi1 hi2
      simp only [List.getElem_map, List.getElem_range]
      rw [show 6 + (1 * 2 + 0) * 20 + 2 * i = 46 + 2 * i from by omega]
      rw [hu10 i (by simpa using hi1), List.getD_eq_getElem _ _ (by omega)]
    have e11 : (List.range 10).map
        (fun i => readU16 (writeBytes B12 0 [85, 170]) (6 + (1 * 2 + 1) * 20 + 2 * i))
        = r11 := by
      apply List.ext_getElem (by simp [h11])
      intro i hi1 hi2
      simp only [List.getElem_map, List.getElem_range]
      rw [show 6 + (1 * 2 + 1) * 20 + 2 * i = 66 + 2 * i from by omega]
      rw [hu11 i (by simpa using hi1), List.getD_eq_getElem _ _ (by omega)]
    have e20 : (List.range 10).map
        (fun i => readU16 (writeBytes B12 0 [85, 170]) (6 + (2 * 2 + 0) * 20 + 2 * i))
        = r20 := by
      apply List.ext_getElem (by simp [h20])
      intro i hi1 hi2
      simp only [List.getElem_map, List.getElem_range]
      rw [show 6 + (2 * 2 + 0) * 20 + 2 * i = 86 + 2 * i from by omega]
      rw [hu20 i (by simpa using hi1), List.getD_eq_getElem _ _ (by omega)]
    have e21 : (List.range 10).map
        (fun i => readU16 (writeBytes B12 0 [85, 170]) (6 + (2 * 2 + 1) * 20 + 2 * i))
        = r21 := by
      apply List.ext_getElem (by simp [h21])
      intro i hi1 hi2
      simp only [List.getElem_map, List.getElem_range]
      rw [show 6 + (2 * 2 + 1) * 20 + 2 * i = 106 + 2 * i from by omega]
      rw [hu21 i (by simpa using hi1), List.getD_eq_getElem _ _ (by omega)]
    rw [e00, e01, e10, e11, e20, e21]
  · rw [load_flash_header, readU16]
    rw [getD_writeBytes_in _ _ _ _ (by omega) (by omega) (by simp)]
    rw [getD_writeBytes_in _ _ _ _ (by omega) (by omega) (by simp)]
    rfl

/-- C4 (amended): writing the 3x2x10 u16 calibration matrices through
`sync_flash` and reading the resulting image back yields byte-identical
matrices; but after `write_flash` the 2-byte header is `0x55, 0xAA`, which
read as a little-endian u16 is the byte-swapped sentinel `0xAA55`, not
`0x55AA` (the pre-write image carries `0xAA, 0x55` = LE `0x55AA`, and
`write_flash` swaps it). -/
theorem C4_flash_roundtrip (d : FlashData)
    (h3 : d.calibration.length = 3)
    (h2 : ∀ m ∈ d.calibration, m.length = 2)
    (h10 : ∀ m ∈ d.calibration, ∀ row ∈ m, row.length = 10)
    (hval : ∀ m ∈ d.calibration, ∀ row ∈ m, ∀ v ∈ row, v < 65536)
    (hloc : d.locales.length = 100)
    (hstr : d.version.length + d.serial.length ≤ 1691) :
    ∃ out, write_flash (sync_flash_image d) = some out ∧
      load_flash_matrices out = d.calibration ∧
      load_flash_header out = 0xAA55 :=
  ⟨writeBytes (sync_flash_image d) 0 [85, 170],
    flash_roundtrip_aux d h3 h2 h10 hval hloc hstr⟩

/-- A concrete flash payload used to witness the round trip. -/
def flashData0 : FlashData :=
  { calibration := List.replicate 3 (List.replicate 2 (List.replicate 10 500))
    oem := 1
    version := [86, 50]
    serial := [86, 49]
    locales := List.replicate 100 1
    phasefine := 0 }

/-- C4 witness: the round-trip theorem applied to a concrete payload. -/
theorem C4_flash_roundtrip_witness :
    ∃ out, write_flash (sync_flash_image flashData0) = some out ∧
      load_flash_matrices out = flashData0.calibration ∧
      load_flash_header out = 0xAA55 :=
  C4_flash_roundtrip flashData0 (by decide) (by decide) (by decide) (by decide)
    (by decide) (by decide)

/-- C4 counterexample: after `write_flash` the flash header read back as a
little-endian u16 is the byte-swapped sentinel 0xAA55, not 0x55AA as the
claim states. -/
theorem C4_header_counterexample :
    write_flash (sync_flash_image flashData0)
      = some (writeBytes (sync_flash_image flashData0) 0 [85, 170]) ∧
    load_flash_header (writeBytes (sync_flash_image flashData0) 0 [85, 170]) = 0xAA55 ∧
    load_flash_header (writeBytes (sync_flash_image flashData0) 0 [85, 170]) ≠ 0x55AA := by
  obtain ⟨hw, hm, hh⟩ := flash_roundtrip_aux flashData0 (by decide) (by decide)
    (by decide) (by decide) (by decide) (by decide)
  exact ⟨hw, hh, by rw [hh]; decide⟩
